import Mathlib

/-!
HPMicro XPI flash driver (`src/target/hpm_xpi.c`)

A shallow embedding of the flash-algorithm driver: the chip identifier, the
configuration command and the operations that run the helper image on the
target.  The debug link (the function pointers of `target_s`, `platform_delay`
and `tc_printf`) is external to the driver; it is a record of state
transformers over an arbitrary world `σ`, so every statement about an
operation holds for every behaviour of the link.

Unsigned 32-bit quantities are natural numbers; a conversion to `uint32_t` is
an explicit `% 2 ^ 32`.
-/

namespace HpmXpi

/-! ## Constants -/

def HPM_XPI_FLASH_BASE : Nat := 0x80000000
def HPM_XPI_FLASH_SIZE : Nat := 0x2000000
def HPM_XPI_PAGE_SIZE : Nat := 0x1000

def HPM_XPI_BASE_DEFAULT : Nat := 0xF3000000
def HPM_XPI_HDR_DEFAULT : Nat := 0xfcf90001
def HPM_XPI_OPT0_DEFAULT : Nat := 0x00000007
def HPM_XPI_OPT1_DEFAULT : Nat := 0

def HPM_ALGO_LOAD_BASE_ADDR : Nat := 0x00000000
def HPM_ALGO_STACK_BASE_ADDR : Nat := HPM_ALGO_LOAD_BASE_ADDR + 10240
def HPM_ALGO_BUFF_BASE_ADDR : Nat := HPM_ALGO_STACK_BASE_ADDR + 256

def HPM_FLASH_INIT : Nat := 0
def HPM_FLASH_ERASE : Nat := 0x6
def HPM_FLASH_PROGRAM : Nat := 0xc
def HPM_FLASH_READ : Nat := 0x12
def HPM_FLASH_GET_INFO : Nat := 0x18
def HPM_FLASH_ERASE_CHIP : Nat := 0x1e

def HPM_ALGO_ERASE_TIMEOUT : Nat := 100000
def HPM_ALGO_WRITE_TIMEOUT : Nat := 10000
def HPM_ALGO_CMD_TIMEOUT : Nat := 500

def ROM_API_TABLE_ROOT : Nat := 0x2001FF00
def HPM6700_A0_SILICON : Nat := 0x2001f398
def HPM6700_A1_SILICON : Nat := 0x2001fa40
def HPM6300_A0_SILICON : Nat := 0x2001e6fc
def HPM6300_A1_SILICON : Nat := 0x2001d8e4
def HPM6200_A0_SILICON : Nat := 0x2001c448
def HPM6200_A1_SILICON : Nat := 0x20014e0c
def HPM6800_A0_SILICON : Nat := 0x2001db20
def HPM5300_A0_SILICON : Nat := 0x01000200
def HPM6200_A2_SILICON : Nat := 0x10000500
def HPM6E00_A0_SILICON : Nat := 0x10001200
def HPM6P00_A0_SILICON : Nat := 0x10000600

/-- Conversion of an unsigned value to `uint32_t`. -/
def u32 (n : Nat) : Nat := n % 2 ^ 32

/-- Subtraction of two `uint32_t` values, as C computes it (modulo `2 ^ 32`). -/
def sub32 (a b : Nat) : Nat := (u32 a + 2 ^ 32 - u32 b) % 2 ^ 32

/-! ## Data model -/

/-- One row of the identification table (`soc_map_t`). -/
structure soc_map_t where
  magic : Nat
  series : String
  deriving DecidableEq, Repr

/-- The controller configuration (`hpm_xpi_cfg_t`); every field is a `uint32_t`. -/
structure hpm_xpi_cfg_t where
  header : Nat
  xpi_base : Nat
  flash_base : Nat
  flash_size : Nat
  sector_size : Nat
  opt0 : Nat
  opt1 : Nat
  deriving DecidableEq, Repr

/-- The fields of the registered flash region (`target_flash_s`) that the driver sets. -/
structure target_flash_s where
  start : Nat
  length : Nat
  blocksize : Nat
  writesize : Nat
  erased : Nat
  deriving DecidableEq, Repr

/-- The debug link as the driver uses it: the members of `target_s` it calls, with
`platform_delay` and `tc_printf`.  Each primitive transforms the world `σ`; a read also
yields the data read.  Modelled from the spec: `target.h`, which declares
`target_halt_reason_e`, is not part of the sources, and the spec gives the poll the two
outcomes halted and running; `halt_poll` yields `true` exactly when the C call returns
`TARGET_HALT_REQUEST`, the only value the driver compares it with. -/
structure target_s (σ : Type) where
  mem_read : σ → Nat → Nat → σ × List Nat
  mem_write : σ → Nat → List Nat → σ
  reg_read : σ → Nat → σ × Nat
  reg_write : σ → Nat → Nat → σ
  halt_resume : σ → Bool → σ
  halt_poll : σ → σ × Bool
  platform_delay : σ → Nat → σ
  tc_printf : σ → String → List Nat → σ

/-- The little-endian 32-bit word held in the first four bytes of a buffer. -/
def le32 (bs : List Nat) : Nat :=
  bs.getD 0 0 % 256 + (bs.getD 1 0 % 256) * 256 + (bs.getD 2 0 % 256) * 65536
    + (bs.getD 3 0 % 256) * 16777216

/-! ## Chip identifier -/

/-- Reads four bytes at `addr` into a `uint32_t` (`hpm_read_u32_via_sysbus`); the C
function stores the word through `buffer` and returns 0, here the word is the result. -/
def hpm_read_u32_via_sysbus {σ : Type} (target : target_s σ) (s : σ) (addr : Nat) : σ × Nat :=
  let r := target.mem_read s addr 4
  (r.1, le32 r.2)

def hpm_soc_set : List Nat :=
  [HPM6700_A0_SILICON, HPM6700_A1_SILICON, HPM6300_A0_SILICON, HPM6300_A1_SILICON,
   HPM6200_A0_SILICON, HPM6200_A1_SILICON, HPM6800_A0_SILICON]

def hpm_soc_maps : List soc_map_t :=
  [⟨HPM6700_A0_SILICON, "hpm6700"⟩, ⟨HPM6700_A1_SILICON, "hpm6700"⟩,
   ⟨HPM6300_A0_SILICON, "hpm6300"⟩, ⟨HPM6300_A1_SILICON, "hpm6300"⟩,
   ⟨HPM6200_A0_SILICON, "hpm6200"⟩, ⟨HPM6200_A1_SILICON, "hpm6200"⟩,
   ⟨HPM6200_A2_SILICON, "hpm6200"⟩, ⟨HPM5300_A0_SILICON, "hpm5300"⟩,
   ⟨HPM6800_A0_SILICON, "hpm6800"⟩, ⟨HPM6E00_A0_SILICON, "hpm6e00"⟩,
   ⟨HPM6P00_A0_SILICON, "hpm6p00"⟩]

/-- The `for` loop of `hpm_get_series_name` over the rows still to visit: the first row
whose magic matches ends the loop with its name, otherwise `series_name` is unchanged. -/
def series_name_loop (magic : Nat) (series_name : String) : List soc_map_t → String
  | [] => series_name
  | m :: rest => if magic = m.magic then m.series else series_name_loop magic series_name rest

def hpm_get_series_name (magic : Nat) : String :=
  series_name_loop magic "Unknown" hpm_soc_maps

/-- The inner `for` loop of `hpm_get_soc_magic` over the probe addresses still to visit:
each address is read, the first whose word is the tag becomes `soc_magic`. -/
def soc_set_loop {σ : Type} (target : target_s σ) (hpm_soc_id_tag : Nat) (soc_magic : Nat) :
    σ → List Nat → σ × Nat
  | s, [] => (s, soc_magic)
  | s, a :: rest =>
    let r := hpm_read_u32_via_sysbus target s a
    if r.2 = hpm_soc_id_tag then (r.1, a) else soc_set_loop target hpm_soc_id_tag soc_magic r.1 rest

def hpm_get_soc_magic {σ : Type} (target : target_s σ) (s : σ) : σ × Nat :=
  let hpm_soc_id_tag : Nat := 0x022010bf
  let hpm_rom_tag : Nat := u32 (ROM_API_TABLE_ROOT + 0x30)
  let soc_magic : Nat := 0xffffffff
  let r := hpm_read_u32_via_sysbus target s hpm_rom_tag
  if r.2 ≠ 0 then (r.1, r.2)
  else soc_set_loop target hpm_soc_id_tag soc_magic r.1 hpm_soc_set

/-! ## Helper image -/

def hpm_flash_algo : List Nat := [
  0xef,0x00,0x00,0x05,0x02,0x90,0xef,0x00,0x60,0x0f,0x02,0x90,0xef,0x00,0x60,0x1f,
  0x02,0x90,0xef,0x00,0x00,0x22,0x02,0x90,0xef,0x00,0xc0,0x24,0x02,0x90,0xef,0x00,
  0x60,0x26,0x02,0x90,0xef,0x00,0x80,0x28,0x02,0x90,0x9c,0x41,0x05,0x47,0xbd,0x8b,
  0x63,0x7f,0xf7,0x00,0x9c,0x45,0x05,0x67,0x13,0x07,0x07,0xf0,0xf9,0x8f,0x13,0x07,
  0x00,0x10,0x63,0x96,0xe7,0x00,0x23,0x20,0x05,0x06,0x23,0x22,0x05,0x06,0x82,0x80,
  0x39,0x71,0x22,0xdc,0x17,0x04,0x00,0x00,0x03,0x24,0x44,0x37,0x83,0x47,0x04,0x00,
  0x4a,0xd8,0x06,0xde,0x26,0xda,0x4e,0xd6,0x17,0x09,0x00,0x00,0x03,0x29,0x49,0x36,
  0x23,0x20,0xe9,0x00,0xa5,0xef,0x97,0x04,0x00,0x00,0x83,0xa4,0xa4,0x34,0x3a,0x85,
  0x02,0xcc,0x02,0xce,0xa6,0x87,0x13,0x88,0x04,0x10,0x23,0xa0,0x07,0x00,0x91,0x07,
  0xe3,0x1d,0xf8,0xfe,0x93,0xd7,0x76,0x00,0x89,0x8b,0x17,0x07,0x00,0x00,0x03,0x27,
  0xa7,0x32,0x1c,0xc3,0xb7,0x07,0x02,0x20,0x83,0xa7,0x47,0xf1,0x93,0x09,0xc1,0x00,
  0x2e,0xc6,0xfc,0x47,0x32,0xc8,0x36,0xca,0x4e,0x86,0x97,0x05,0x00,0x00,0x83,0xa5,
  0x65,0x30,0x82,0x97,0x01,0xc9,0xf2,0x50,0x62,0x54,0xd2,0x54,0x42,0x59,0xb2,0x59,
  0x21,0x61,0x82,0x80,0x03,0x25,0x09,0x00,0xce,0x85,0x81,0x3f,0x83,0x47,0x04,0x00,
  0x23,0x8a,0x04,0x02,0x81,0xe7,0x85,0x47,0x23,0x00,0xf4,0x00,0xf2,0x50,0x62,0x54,
  0xd2,0x54,0x42,0x59,0xb2,0x59,0x01,0x45,0x21,0x61,0x82,0x80,0x01,0x11,0x97,0x07,
  0x00,0x00,0x83,0xa7,0x27,0x2c,0x22,0xcc,0x03,0xd4,0x87,0x02,0x26,0xca,0x4a,0xc8,
  0x06,0xce,0x4e,0xc6,0x52,0xc4,0x56,0xc2,0x5a,0xc0,0x2a,0x04,0xb2,0x84,0x2e,0x89,
  0x63,0x7e,0x86,0x00,0x01,0x45,0xc9,0xec,0xf2,0x40,0x62,0x44,0xd2,0x44,0x42,0x49,
  0xb2,0x49,0x22,0x4a,0x92,0x4a,0x02,0x4b,0x05,0x61,0x82,0x80,0xb3,0xf9,0x85,0x02,
  0x33,0x0a,0x34,0x41,0x63,0x0d,0x44,0x03,0x37,0x07,0x02,0x20,0x03,0x27,0x47,0xf1,
  0x17,0x0b,0x00,0x00,0x03,0x2b,0x4b,0x27,0x97,0x0a,0x00,0x00,0x83,0xaa,0x4a,0x27,
  0x03,0x28,0x87,0x01,0x83,0x25,0x0b,0x00,0x03,0xa5,0x0a,0x00,0x52,0x87,0xca,0x86,
  0x3e,0x86,0x02,0x98,0x55,0xf9,0xa6,0x99,0xb3,0x84,0x89,0x40,0x52,0x99,0xe3,0x73,
  0x94,0xfa,0x17,0x0b,0x00,0x00,0x03,0x2b,0x2b,0x24,0x97,0x0a,0x00,0x00,0x83,0xaa,
  0x2a,0x24,0x37,0x0a,0x02,0x20,0x97,0x09,0x00,0x00,0x83,0xa9,0xa9,0x22,0x21,0xa0,
  0x22,0x99,0x63,0x77,0x94,0x02,0x83,0x27,0x4a,0xf1,0x83,0x25,0x0b,0x00,0x03,0xa5,
  0x0a,0x00,0xdc,0x53,0xca,0x86,0x4e,0x86,0x82,0x97,0x81,0x8c,0x75,0xd1,0xad,0xb7,
  0x17,0x0b,0x00,0x00,0x03,0x2b,0x4b,0x20,0x97,0x0a,0x00,0x00,0x83,0xaa,0x4a,0x20,
  0xb7,0x07,0x02,0x20,0x83,0xa7,0x47,0xf1,0x62,0x44,0x83,0x25,0x0b,0x00,0x03,0xa5,
  0x0a,0x00,0xf2,0x40,0xb2,0x49,0x22,0x4a,0x92,0x4a,0x02,0x4b,0x9c,0x4f,0x26,0x87,
  0xca,0x86,0xd2,0x44,0x42,0x49,0x17,0x06,0x00,0x00,0x03,0x26,0xa6,0x1c,0x05,0x61,
  0x82,0x87,0xb7,0x07,0x02,0x20,0x83,0xa7,0x47,0xf1,0x2e,0x87,0x03,0xa8,0x87,0x02,
  0x97,0x07,0x00,0x00,0x83,0xa7,0x47,0x1b,0x8c,0x43,0x97,0x07,0x00,0x00,0x83,0xa7,
  0x27,0x1b,0x88,0x43,0xb6,0x87,0xb2,0x86,0x17,0x06,0x00,0x00,0x03,0x26,0x86,0x19,
  0x02,0x88,0xb7,0x07,0x02,0x20,0x83,0xa7,0x47,0xf1,0xae,0x88,0x32,0x87,0x03,0xa8,
  0xc7,0x02,0x97,0x07,0x00,0x00,0x83,0xa7,0x27,0x18,0x8c,0x43,0x97,0x07,0x00,0x00,
  0x83,0xa7,0x07,0x18,0x88,0x43,0x17,0x06,0x00,0x00,0x03,0x26,0xa6,0x16,0xb6,0x87,
  0xc6,0x86,0x02,0x88,0x91,0xcd,0x97,0x07,0x00,0x00,0x83,0xa7,0xa7,0x15,0x98,0x53,
  0x83,0xd7,0x67,0x02,0x01,0x45,0x2a,0x07,0xaa,0x07,0x98,0xc1,0xdc,0xc1,0x82,0x80,
  0x09,0x45,0x82,0x80,0xb7,0x07,0x02,0x20,0x83,0xa7,0x47,0xf1,0x17,0x07,0x00,0x00,
  0x03,0x27,0x87,0x13,0x0c,0x43,0x17,0x07,0x00,0x00,0x03,0x27,0x67,0x13,0xdc,0x4f,
  0x08,0x43,0x17,0x06,0x00,0x00,0x03,0x26,0xe6,0x11,0x82,0x87,0x82,0x80,0x00,0x00,
  0x00,0x00,0x00,0x00,0x00,0x00,0x00,0x00,0x00,0x00,0x00,0x00,0x00,0x00,0x00,0x00,
  0x00,0x00,0x00,0x00,0x00,0x00,0x00,0x00,0x00,0x00,0x00,0x00,0x00,0x00,0x00,0x00,
  0x00,0x00,0x00,0x00,0x00,0x00,0x00,0x00,0x00,0x00,0x00,0x00,0x00,0x00,0x00,0x00,
  0x00,0x00,0x00,0x00,0x00,0x00,0x00,0x00,0x00,0x00,0x00,0x00,0x00,0x00,0x00,0x00,
  0x00,0x00,0x00,0x00,0x00,0x00,0x00,0x00,0x00,0x00,0x00,0x00,0x00,0x00,0x00,0x00,
  0x00,0x00,0x00,0x00,0x00,0x00,0x00,0x00,0x00,0x00,0x00,0x00,0x00,0x00,0x00,0x00,
  0x00,0x00,0x00,0x00,0x00,0x00,0x00,0x00,0x00,0x00,0x00,0x00,0x00,0x00,0x00,0x00,
  0x00,0x00,0x00,0x00,0x00,0x00,0x00,0x00,0x00,0x00,0x00,0x00,0x00,0x00,0x00,0x00,
  0x00,0x00,0x00,0x00,0x00,0x00,0x00,0x00,0x00,0x00,0x00,0x00,0x00,0x00,0x00,0x00,
  0x00,0x00,0x00,0x00,0x00,0x00,0x00,0x00,0x00,0x00,0x00,0x00,0x00,0x00,0x00,0x00,
  0x00,0x00,0x00,0x00,0x00,0x00,0x00,0x00,0x00,0x00,0x00,0x00,0x00,0x00,0x00,0x00,
  0x00,0x00,0x00,0x00,0x00,0x00,0x00,0x00,0x00,0x00,0x00,0x00,0x00,0x00,0x00,0x00,
  0x00,0x00,0x00,0x00,0x00,0x00,0x00,0x00,0x00,0x00,0x00,0x00,0x00,0x00,0x00,0x00,
  0x00,0x00,0x00,0x00,0x00,0x00,0x00,0x00,0x00,0x00,0x00,0x00,0x00,0x00,0x00,0x00,
  0x00,0x00,0x00,0x00,0x00,0x00,0x00,0x00,0x00,0x00,0x00,0x00,0x00,0x00,0x00,0x00,
  0x00,0x00,0x00,0x00,0x00,0x00,0x00,0x00,0x00,0x00,0x00,0x00,0x00,0x00,0x00,0x00,
  0x00,0x00,0x00,0x00,0x00,0x00,0x00,0x00,0x00,0x00,0x00,0x00,0x00,0x00,0x00,0x00,
  0xbc,0x02,0x00,0x00,0xb4,0x02,0x00,0x00,0xb8,0x02,0x00,0x00,0xb0,0x02,0x00,0x00,
  0xff,0xff,0xff,0xff,0x00,0x00,0x00,0x00]

/-! ## Running the helper -/

/-- The poll loop that every dispatching function carries after `halt_resume`:
`do { if (halt_poll == TARGET_HALT_REQUEST) break; platform_delay(1); } while (timeout++ < budget);`
started with the counter at `timeout`; the result is the world and the counter at loop
exit.  The counter is a `uint32_t`; from 0 it never passes `budget + 1`, far below
`2 ^ 32` for the three budgets, so no wrap-around is modelled. -/
def hpm_algo_poll {σ : Type} (target : target_s σ) (budget : Nat) (s : σ) (timeout : Nat) :
    σ × Nat :=
  let r := target.halt_poll s
  if r.2 then (r.1, timeout)
  else
    let s2 := target.platform_delay r.1 1
    if timeout < budget then hpm_algo_poll target budget s2 (timeout + 1)
    else (s2, timeout + 1)
termination_by budget - timeout

/-- The tail shared by the dispatching functions that report the outcome: the poll loop,
the read of register 10 and `if ((tmp) || (timeout >= budget)) return false; return true;`. -/
def hpm_algo_finish {σ : Type} (target : target_s σ) (budget : Nat) (s : σ) : σ × Bool :=
  let r := hpm_algo_poll target budget s 0
  let rd := target.reg_read r.1 10
  if rd.2 ≠ 0 ∨ r.2 ≥ budget then (rd.1, false) else (rd.1, true)

def hpm_xpi_cmd_load {σ : Type} (target : target_s σ) (s : σ) : σ × Bool :=
  (target.mem_write s HPM_ALGO_LOAD_BASE_ADDR hpm_flash_algo, true)

/-- The statements of `hpm_xpi_cmd_init` up to and including `halt_resume`. -/
def hpm_xpi_cmd_init_call {σ : Type} (target : target_s σ) (xpi_cfgs : hpm_xpi_cfg_t) (s : σ) :
    σ :=
  let tmp := HPM_ALGO_STACK_BASE_ADDR
  let s := target.reg_write s 2 tmp
  let s := target.reg_write s 10 xpi_cfgs.flash_base
  let s := target.reg_write s 11 xpi_cfgs.header
  let s := target.reg_write s 12 xpi_cfgs.opt0
  let s := target.reg_write s 13 xpi_cfgs.opt1
  let s := target.reg_write s 14 xpi_cfgs.xpi_base
  let tmp := HPM_ALGO_LOAD_BASE_ADDR + HPM_FLASH_INIT
  let s := target.reg_write s 32 tmp
  let tmp := HPM_ALGO_LOAD_BASE_ADDR + HPM_FLASH_INIT + 4
  let s := target.reg_write s 1 tmp
  target.halt_resume s false

def hpm_xpi_cmd_init {σ : Type} (target : target_s σ) (xpi_cfgs : hpm_xpi_cfg_t) (s : σ) :
    σ × Bool :=
  hpm_algo_finish target HPM_ALGO_CMD_TIMEOUT (hpm_xpi_cmd_init_call target xpi_cfgs s)

/-- The statements of `hpm_xpi_cmd_info` up to and including its own `halt_resume`: the
six configuration lines, the reload, the init run (whose result is dropped) and the
get-info call frame. -/
def hpm_xpi_cmd_info_call {σ : Type} (target : target_s σ) (xpi_cfgs : hpm_xpi_cfg_t) (s : σ) :
    σ :=
  let s := target.tc_printf s "  cfg_xpi_header: 0x%x \n" [xpi_cfgs.header]
  let s := target.tc_printf s "  cfg_flash_base: 0x%x \n" [xpi_cfgs.flash_base]
  let s := target.tc_printf s "  cfg_flash_size: 0x%x \n" [xpi_cfgs.flash_size]
  let s := target.tc_printf s "    cfg_xpi_base: 0x%x \n" [xpi_cfgs.xpi_base]
  let s := target.tc_printf s "        cfg_opt0: 0x%x \n" [xpi_cfgs.opt0]
  let s := target.tc_printf s "        cfg_opt1: 0x%x \n" [xpi_cfgs.opt1]
  let s := (hpm_xpi_cmd_load target s).1
  let s := (hpm_xpi_cmd_init target xpi_cfgs s).1
  let tmp := HPM_ALGO_STACK_BASE_ADDR
  let s := target.reg_write s 2 tmp
  let s := target.reg_write s 10 xpi_cfgs.flash_base
  let tmp := HPM_ALGO_BUFF_BASE_ADDR
  let s := target.reg_write s 11 tmp
  let tmp := HPM_ALGO_LOAD_BASE_ADDR + HPM_FLASH_GET_INFO
  let s := target.reg_write s 32 tmp
  let tmp := HPM_ALGO_LOAD_BASE_ADDR + HPM_FLASH_GET_INFO + 4
  let s := target.reg_write s 1 tmp
  target.halt_resume s false

def hpm_xpi_cmd_info {σ : Type} (target : target_s σ) (xpi_cfgs : hpm_xpi_cfg_t) (s : σ) :
    σ × Bool :=
  let s := hpm_xpi_cmd_info_call target xpi_cfgs s
  let r := hpm_algo_poll target HPM_ALGO_CMD_TIMEOUT s 0
  let rd := target.reg_read r.1 10
  if rd.2 ≠ 0 ∨ r.2 ≥ HPM_ALGO_CMD_TIMEOUT then (rd.1, true)
  else
    let m := target.mem_read rd.1 HPM_ALGO_BUFF_BASE_ADDR 8
    let s := target.tc_printf m.1 " real total size: 0x%x \n" [le32 m.2]
    let s := target.tc_printf s "real sector size: 0x%x \n" [le32 (m.2.drop 4)]
    (s, true)

/-- The statements of `hpm_xpi_cmd_erase` up to and including `halt_resume`;
`flash_length` is `target->flash->length`. -/
def hpm_xpi_cmd_erase_call {σ : Type} (target : target_s σ) (xpi_cfgs : hpm_xpi_cfg_t)
    (flash_length : Nat) (s : σ) : σ :=
  let tmp := HPM_ALGO_STACK_BASE_ADDR
  let s := target.reg_write s 2 tmp
  let s := target.reg_write s 10 xpi_cfgs.flash_base
  let tmp := 0
  let s := target.reg_write s 11 tmp
  let tmp := u32 flash_length
  let s := target.reg_write s 12 tmp
  let tmp := HPM_ALGO_LOAD_BASE_ADDR + HPM_FLASH_ERASE
  let s := target.reg_write s 32 tmp
  let tmp := HPM_ALGO_LOAD_BASE_ADDR + HPM_FLASH_ERASE + 4
  let s := target.reg_write s 1 tmp
  target.halt_resume s false

def hpm_xpi_cmd_erase {σ : Type} (target : target_s σ) (xpi_cfgs : hpm_xpi_cfg_t)
    (flash_length : Nat) (s : σ) : σ × Bool :=
  hpm_algo_finish target HPM_ALGO_ERASE_TIMEOUT
    (hpm_xpi_cmd_erase_call target xpi_cfgs flash_length s)

/-- The statements of `hpm_xpi_flash_prepare` up to and including `halt_resume`. -/
def hpm_xpi_flash_prepare_call {σ : Type} (target : target_s σ) (xpi_cfgs : hpm_xpi_cfg_t)
    (s : σ) : σ :=
  let s := target.mem_write s HPM_ALGO_LOAD_BASE_ADDR hpm_flash_algo
  let s := target.reg_write s 10 xpi_cfgs.flash_base
  let s := target.reg_write s 11 xpi_cfgs.header
  let s := target.reg_write s 12 xpi_cfgs.opt0
  let s := target.reg_write s 13 xpi_cfgs.opt1
  let s := target.reg_write s 14 xpi_cfgs.xpi_base
  let tmp := HPM_ALGO_LOAD_BASE_ADDR + HPM_FLASH_INIT
  let s := target.reg_write s 32 tmp
  let tmp := HPM_ALGO_LOAD_BASE_ADDR + HPM_FLASH_INIT + 4
  let s := target.reg_write s 1 tmp
  let tmp := HPM_ALGO_STACK_BASE_ADDR
  let s := target.reg_write s 2 tmp
  target.halt_resume s false

def hpm_xpi_flash_prepare {σ : Type} (target : target_s σ) (xpi_cfgs : hpm_xpi_cfg_t) (s : σ) :
    σ × Bool :=
  hpm_algo_finish target HPM_ALGO_CMD_TIMEOUT (hpm_xpi_flash_prepare_call target xpi_cfgs s)

/-- The statements of `hpm_xpi_flash_erase` up to and including `halt_resume`.  `addr` is
a `target_addr_t` (32 bits); `reg_write(target,12,&len,4)` hands over the four low-order
bytes of the `size_t` `len`. -/
def hpm_xpi_flash_erase_call {σ : Type} (target : target_s σ) (xpi_cfgs : hpm_xpi_cfg_t)
    (addr len : Nat) (s : σ) : σ :=
  let s := target.reg_write s 10 xpi_cfgs.flash_base
  let tmp := sub32 addr xpi_cfgs.flash_base
  let s := target.reg_write s 11 tmp
  let s := target.reg_write s 12 (u32 len)
  let tmp := HPM_ALGO_STACK_BASE_ADDR
  let s := target.reg_write s 2 tmp
  let tmp := HPM_ALGO_LOAD_BASE_ADDR + HPM_FLASH_ERASE
  let s := target.reg_write s 32 tmp
  let tmp := HPM_ALGO_LOAD_BASE_ADDR + HPM_FLASH_GET_INFO + 4
  let s := target.reg_write s 1 tmp
  target.halt_resume s false

def hpm_xpi_flash_erase {σ : Type} (target : target_s σ) (xpi_cfgs : hpm_xpi_cfg_t)
    (addr len : Nat) (s : σ) : σ × Bool :=
  hpm_algo_finish target HPM_ALGO_ERASE_TIMEOUT
    (hpm_xpi_flash_erase_call target xpi_cfgs addr len s)

/-- The statements of `hpm_xpi_flash_write` up to and including `halt_resume`.  `src` is
the caller's buffer, of which `mem_write` sends the first `len` bytes. -/
def hpm_xpi_flash_write_call {σ : Type} (target : target_s σ) (xpi_cfgs : hpm_xpi_cfg_t)
    (dest : Nat) (src : List Nat) (len : Nat) (s : σ) : σ :=
  let s := target.mem_write s HPM_ALGO_BUFF_BASE_ADDR (src.take len)
  let s := target.reg_write s 10 xpi_cfgs.flash_base
  let tmp := sub32 dest xpi_cfgs.flash_base
  let s := target.reg_write s 11 tmp
  let tmp := HPM_ALGO_BUFF_BASE_ADDR
  let s := target.reg_write s 12 tmp
  let s := target.reg_write s 13 (u32 len)
  let tmp := HPM_ALGO_STACK_BASE_ADDR
  let s := target.reg_write s 2 tmp
  let tmp := HPM_ALGO_LOAD_BASE_ADDR + HPM_FLASH_PROGRAM
  let s := target.reg_write s 32 tmp
  let tmp := HPM_ALGO_LOAD_BASE_ADDR + HPM_FLASH_PROGRAM + 4
  let s := target.reg_write s 1 tmp
  target.halt_resume s false

def hpm_xpi_flash_write {σ : Type} (target : target_s σ) (xpi_cfgs : hpm_xpi_cfg_t)
    (dest : Nat) (src : List Nat) (len : Nat) (s : σ) : σ × Bool :=
  hpm_algo_finish target HPM_ALGO_WRITE_TIMEOUT
    (hpm_xpi_flash_write_call target xpi_cfgs dest src len s)

/-! ## Configuration command -/

/-- The driver state that `hpm_xpi_cmd_config` works on: the global `xpi_cfgs` and the
flash region `target->flash`. -/
structure xpi_state where
  xpi_cfgs : hpm_xpi_cfg_t
  flash : target_flash_s
  deriving DecidableEq, Repr

/-- The command `xpi_cfg`.  `argc` is the C `int`, `argv i` the i-th argument string and
`strtoul` the C library parser called with base 0 (not part of the sources, hence a
parameter); its `unsigned long` result is converted to the `uint32_t` field. -/
def hpm_xpi_cmd_config {σ : Type} (target : target_s σ) (strtoul : String → Nat) (argc : Int)
    (argv : Nat → String) (st : xpi_state) (s : σ) : (σ × xpi_state) × Bool :=
  if argc < 4 ∨ argc > 6 then
    ((target.tc_printf s "xpi_cfg args invalid \n" [], st), false)
  else
    let cfg := st.xpi_cfgs
    let cfg := { cfg with flash_base := u32 (strtoul (argv 1)) }
    let cfg := { cfg with flash_size := u32 (strtoul (argv 2)) }
    let cfg := { cfg with xpi_base := u32 (strtoul (argv 3)) }
    if argc = 4 then
      let cfg := { cfg with header := HPM_XPI_HDR_DEFAULT }
      let cfg := { cfg with opt0 := HPM_XPI_OPT0_DEFAULT }
      let cfg := { cfg with opt1 := HPM_XPI_OPT1_DEFAULT }
      let flash := { st.flash with start := cfg.flash_base }
      let flash := { flash with length := cfg.flash_size }
      ((s, { xpi_cfgs := cfg, flash := flash }), true)
    else if argc = 5 then
      let cfg := { cfg with header := u32 (HPM_XPI_HDR_DEFAULT + 1) }
      let cfg := { cfg with opt0 := u32 (strtoul (argv 4)) }
      let cfg := { cfg with opt1 := HPM_XPI_OPT1_DEFAULT }
      let flash := { st.flash with start := cfg.flash_base }
      let flash := { flash with length := cfg.flash_size }
      ((s, { xpi_cfgs := cfg, flash := flash }), true)
    else if argc = 6 then
      let cfg := { cfg with header := u32 (HPM_XPI_HDR_DEFAULT + 1) }
      let cfg := { cfg with opt0 := u32 (strtoul (argv 4)) }
      let cfg := { cfg with opt1 := u32 (strtoul (argv 5)) }
      let flash := { st.flash with start := cfg.flash_base }
      let flash := { flash with length := cfg.flash_size }
      ((s, { xpi_cfgs := cfg, flash := flash }), true)
    else
      ((s, { st with xpi_cfgs := cfg }), false)

/-! ## Observing the link -/

/-- A call made on the debug link. -/
inductive Event where
  | mem_read (addr len : Nat)
  | mem_write (addr : Nat) (data : List Nat)
  | reg_read (reg : Nat)
  | reg_write (reg val : Nat)
  | halt_resume (step : Bool)
  | halt_poll
  | platform_delay (ms : Nat)
  | tc_printf (fmt : String) (args : List Nat)
  deriving DecidableEq, Repr

/-- The link `target` with a recorder in front: every call is appended to a log, in the
order it is made, and answered by `target`. -/
def spy {σ : Type} (target : target_s σ) : target_s (σ × List Event) where
  mem_read := fun w addr len =>
    ((( target.mem_read w.1 addr len).1, w.2 ++ [Event.mem_read addr len]),
      (target.mem_read w.1 addr len).2)
  mem_write := fun w addr data => (target.mem_write w.1 addr data, w.2 ++ [Event.mem_write addr data])
  reg_read := fun w reg =>
    (((target.reg_read w.1 reg).1, w.2 ++ [Event.reg_read reg]), (target.reg_read w.1 reg).2)
  reg_write := fun w reg val => (target.reg_write w.1 reg val, w.2 ++ [Event.reg_write reg val])
  halt_resume := fun w step => (target.halt_resume w.1 step, w.2 ++ [Event.halt_resume step])
  halt_poll := fun w =>
    (((target.halt_poll w.1).1, w.2 ++ [Event.halt_poll]), (target.halt_poll w.1).2)
  platform_delay := fun w ms => (target.platform_delay w.1 ms, w.2 ++ [Event.platform_delay ms])
  tc_printf := fun w fmt args => (target.tc_printf w.1 fmt args, w.2 ++ [Event.tc_printf fmt args])

/-- Whether a logged call is one of those an operation makes after it resumed the CPU: a
halt poll, a delay of one unit or the read of register 10. -/
def Event.isWait : Event → Bool
  | Event.halt_poll => true
  | Event.platform_delay ms => decide (ms = 1)
  | Event.reg_read reg => decide (reg = 10)
  | _ => false

/-- The number of halt polls in a log. -/
def pollCount (log : List Event) : Nat := log.count Event.halt_poll

/-! ## A simulated target -/

/-- The world of the simulated target: byte memory, the registers last written by the
host, the number of halt polls answered and the time slept so far. -/
structure sim_s where
  mem : Nat → Nat
  regs : Nat → Nat
  polls : Nat
  slept : Nat

/-- The simulated link.  `halted i` is the answer to the poll number `i` (counted from 0
over the life of the world) and `reg_value r` is what a read of register `r` yields, i.e.
what the helper left there.  Memory is faithful: a read returns the bytes last written. -/
def sim (halted : Nat → Bool) (reg_value : Nat → Nat) : target_s sim_s where
  mem_read := fun w addr len => (w, (List.range len).map (fun i => w.mem (addr + i)))
  mem_write := fun w addr data =>
    { w with mem := fun a => if addr ≤ a ∧ a < addr + data.length then data.getD (a - addr) 0 else w.mem a }
  reg_read := fun w reg => (w, reg_value reg)
  reg_write := fun w reg val => { w with regs := fun r => if r = reg then val else w.regs r }
  halt_resume := fun w _ => w
  halt_poll := fun w => ({ w with polls := w.polls + 1 }, halted w.polls)
  platform_delay := fun w ms => { w with slept := w.slept + ms }
  tc_printf := fun w _ _ => w

/-- The 32-bit little-endian word that memory `mem` holds at `addr`. -/
def word_at (mem : Nat → Nat) (addr : Nat) : Nat :=
  le32 [mem addr, mem (addr + 1), mem (addr + 2), mem (addr + 3)]


/-- The iteration counter at the exit of the poll loop, for a run whose `halt_resume` left
the world `s`. -/
def exit_counter {σ : Type} (target : target_s σ) (budget : Nat) (s : σ) : Nat :=
  (hpm_algo_poll target budget s 0).2

/-- The value that the read of register 10 after the poll loop yields, for a run whose
`halt_resume` left the world `s`. -/
def a0_at_exit {σ : Type} (target : target_s σ) (budget : Nat) (s : σ) : Nat :=
  (target.reg_read (hpm_algo_poll target budget s 0).1 10).2

/-- A stand-in for the library parser on strings of decimal digits, for concrete runs of
the configuration command. -/
def strtoul_dec (a : String) : Nat :=
  a.data.foldl (fun n c => 10 * n + (c.toNat - 48)) 0

/-- A simulated world with zeroed memory and registers, nothing polled, nothing slept. -/
def sim_zero : sim_s := { mem := fun _ => 0, regs := fun _ => 0, polls := 0, slept := 0 }

/-- The state that `hpm_xpi_probe` leaves for an unidentified chip: the default
configuration and the flash region registered from it. -/
def xpi_state_default : xpi_state :=
  { xpi_cfgs := { header := HPM_XPI_HDR_DEFAULT, xpi_base := HPM_XPI_BASE_DEFAULT,
                  flash_base := HPM_XPI_FLASH_BASE, flash_size := HPM_XPI_FLASH_SIZE,
                  sector_size := HPM_XPI_PAGE_SIZE, opt0 := HPM_XPI_OPT0_DEFAULT,
                  opt1 := HPM_XPI_OPT1_DEFAULT },
    flash := { start := HPM_XPI_FLASH_BASE, length := HPM_XPI_FLASH_SIZE,
               blocksize := HPM_XPI_PAGE_SIZE, writesize := HPM_XPI_PAGE_SIZE, erased := 0xff } }

/-- The argument vector `xpi_cfg 2415919104 16777216 4076863488 5 4096`. -/
def argv_example : Nat → String
  | 0 => "xpi_cfg"
  | 1 => "2415919104"
  | 2 => "16777216"
  | 3 => "4076863488"
  | 4 => "5"
  | 5 => "4096"
  | _ => ""

/-! ## Mass erase and probe -/

/-- The statements of `hpm_xpi_flash_mass_erase` that precede the erase invocation: the
reload, the init run and the get-info run, each result dropped. -/
def hpm_xpi_flash_mass_erase_call {σ : Type} (target : target_s σ) (xpi_cfgs : hpm_xpi_cfg_t)
    (s : σ) : σ :=
  let s := (hpm_xpi_cmd_load target s).1
  let s := (hpm_xpi_cmd_init target xpi_cfgs s).1
  (hpm_xpi_cmd_info target xpi_cfgs s).1

/-- The adapter operation `hpm_xpi_flash_mass_erase`; `st.flash` is the region of the
target (`target->flash`), whose length `hpm_xpi_cmd_erase` reads.  The result of
`hpm_xpi_cmd_erase` is dropped and the function ends in `return true`. -/
def hpm_xpi_flash_mass_erase {σ : Type} (target : target_s σ) (st : xpi_state) (s : σ) :
    σ × Bool :=
  let s := hpm_xpi_flash_mass_erase_call target st.xpi_cfgs s
  let s := (hpm_xpi_cmd_erase target st.xpi_cfgs st.flash.length s).1
  (s, true)

/-- The region that `hpm_xpi_add_flash` allocates and hands to `target_add_flash`. -/
def hpm_xpi_add_flash (addr length erasesize : Nat) : target_flash_s :=
  { start := addr, length := length, blocksize := erasesize, writesize := erasesize,
    erased := 0xff }

/-- The names of the commands in `hpm_xpi_cmd_list`. -/
def hpm_xpi_cmd_list : List String := ["chip_info", "xpi_cfg", "xpi_info"]

/-- What `hpm_xpi_probe` leaves behind: the driver name, the global `xpi_cfgs`, the RAM
regions given to `target_add_ram32` (start and length, in call order), the flash region
given to `target_add_flash` and the commands given to `target_add_commands`. -/
structure probe_s where
  driver : String
  xpi_cfgs : hpm_xpi_cfg_t
  ram : List (Nat × Nat)
  flash : target_flash_s
  commands : List String
  deriving DecidableEq, Repr

/-- The `switch (soc_magic)` of `hpm_xpi_probe`: the family overrides of `xpi_cfgs` and the
RAM regions of the family. -/
def probe_switch (soc_magic : Nat) (cfg : hpm_xpi_cfg_t) : hpm_xpi_cfg_t × List (Nat × Nat) :=
  if soc_magic = HPM6700_A0_SILICON ∨ soc_magic = HPM6700_A1_SILICON then
    ({ cfg with xpi_base := 0xF3040000 },
     [(0x00000000, 256 * 1024), (0x00080000, 256 * 1024), (0x01080000, 512 * 1024),
      (0x01100000, 256 * 1024), (0x0117C000, 16 * 1024), (0xF0300000, 32 * 1024),
      (0xF40F0000, 8 * 1024)])
  else if soc_magic = HPM6300_A0_SILICON ∨ soc_magic = HPM6300_A1_SILICON then
    ({ cfg with xpi_base := 0xF3040000, flash_size := 0x1000000 },
     [(0x00000000, 128 * 1024), (0x00080000, 128 * 1024), (0x01080000, 256 * 1024),
      (0x010C0000, 256 * 1024), (0xF0300000, 32 * 1024)])
  else if soc_magic = HPM6200_A0_SILICON ∨ soc_magic = HPM6200_A1_SILICON
      ∨ soc_magic = HPM6200_A2_SILICON then
    ({ cfg with xpi_base := 0xF3040000, flash_size := 0x1000000 },
     [(0x00000000, 128 * 1024), (0x00080000, 128 * 1024), (0x01080000, 128 * 1024),
      (0x010A0000, 128 * 1024), (0xF0300000, 32 * 1024)])
  else if soc_magic = HPM6800_A0_SILICON then
    (cfg,
     [(0x00000000, 256 * 1024), (0x00080000, 256 * 1024), (0x01200000, 256 * 1024),
      (0x01240000, 256 * 1024), (0xF0400000, 32 * 1024), (0xF4130000, 16 * 1024)])
  else if soc_magic = HPM5300_A0_SILICON then
    ({ cfg with header := u32 (HPM_XPI_HDR_DEFAULT + 1), opt0 := 6, opt1 := 0x1000 },
     [(0x00000000, 128 * 1024), (0x00080000, 128 * 1024), (0xf0400000, 32 * 1024)])
  else if soc_magic = HPM6E00_A0_SILICON then
    ({ cfg with opt0 := 7, opt1 := 0 },
     [(0x00000000, 256 * 1024), (0x00200000, 256 * 1024), (0x01200000, 512 * 1024),
      (0x01280000, 256 * 1024), (0x012FC000, 16 * 1024), (0xF0200000, 32 * 1024)])
  else if soc_magic = HPM6P00_A0_SILICON then
    ({ cfg with header := u32 (HPM_XPI_HDR_DEFAULT + 1), opt0 := 5, opt1 := 0x1000 },
     [(0x00000000, 128 * 1024), (0x00200000, 128 * 1024), (0x01200000, 128 * 1024),
      (0x01220000, 128 * 1024), (0xF0200000, 32 * 1024)])
  else (cfg, [])

/-- The body of `hpm_xpi_probe` once `soc_magic` is read: the driver name, the default
configuration, the family switch, the flash region and the commands. -/
def hpm_xpi_probe_magic (soc_magic : Nat) : probe_s :=
  let driver := hpm_get_series_name soc_magic
  let driver := if driver = "Unknown" then "HPMicro" else driver
  let cfg : hpm_xpi_cfg_t :=
    { header := HPM_XPI_HDR_DEFAULT, xpi_base := HPM_XPI_BASE_DEFAULT,
      flash_base := HPM_XPI_FLASH_BASE, flash_size := HPM_XPI_FLASH_SIZE,
      opt0 := HPM_XPI_OPT0_DEFAULT, opt1 := HPM_XPI_OPT1_DEFAULT,
      sector_size := HPM_XPI_PAGE_SIZE }
  let r := probe_switch soc_magic cfg
  { driver := driver, xpi_cfgs := r.1, ram := r.2,
    flash := hpm_xpi_add_flash r.1.flash_base r.1.flash_size r.1.sector_size,
    commands := hpm_xpi_cmd_list }

def hpm_xpi_probe {σ : Type} (target : target_s σ) (s : σ) : (σ × probe_s) × Bool :=
  let r := hpm_get_soc_magic target s
  ((r.1, hpm_xpi_probe_magic r.2), true)

/-- The driver state after a probe: the configuration and the registered flash region. -/
def probe_s.state (p : probe_s) : xpi_state := { xpi_cfgs := p.xpi_cfgs, flash := p.flash }

/-! ## Further observations -/

/-- Whether a logged call is a memory read. -/
def Event.isMemRead : Event → Bool
  | Event.mem_read _ _ => true
  | _ => false

/-- The number of memory reads in a log. -/
def memReadCount (log : List Event) : Nat := log.countP Event.isMemRead

/-- The value last written to register `reg` in a log, if any. -/
def reg_written (log : List Event) (reg : Nat) : Option Nat :=
  log.foldl (fun acc e =>
    match e with
    | Event.reg_write r v => if r = reg then some v else acc
    | _ => acc) none

/-- The data-model invariant of the configuration, as the specification words it: the
region `[flash_base, flash_base + flash_size)` lies inside the flash window
`[0x80000000, 0x80000000 + 0x2000000)` and `sector_size` is a power of two that divides
`flash_size`. -/
def xpi_cfg_inv (cfg : hpm_xpi_cfg_t) : Prop :=
  HPM_XPI_FLASH_BASE ≤ cfg.flash_base
    ∧ cfg.flash_base + cfg.flash_size ≤ HPM_XPI_FLASH_BASE + HPM_XPI_FLASH_SIZE
    ∧ (∃ k, cfg.sector_size = 2 ^ k)
    ∧ cfg.sector_size ∣ cfg.flash_size

/-- An argument vector `xpi_cfg 0 16777216 4076863488`, whose flash base lies below the
flash window. -/
def argv_outside : Nat → String
  | 0 => "xpi_cfg"
  | 1 => "0"
  | 2 => "16777216"
  | 3 => "4076863488"
  | _ => ""

/-- A simulated world whose ROM-tag word at 0x2001FF30 holds the HPM5300 magic 0x01000200
(little-endian bytes 00 02 00 01) and whose other memory is zero. -/
def sim_hpm5300 : sim_s :=
  { mem := fun a => if a = 0x2001FF31 then 0x02 else if a = 0x2001FF33 then 0x01 else 0,
    regs := fun _ => 0, polls := 0, slept := 0 }

/-- Whether a logged call changes nothing on the target: anything but a memory write, a
register write or a resume. -/
def Event.isPassive : Event → Bool
  | Event.mem_write _ _ => false
  | Event.reg_write _ _ => false
  | Event.halt_resume _ => false
  | _ => true

/-- The calls of `hpm_xpi_cmd_init` up to and including the resume. -/
def init_frame (xpi_cfgs : hpm_xpi_cfg_t) : List Event :=
  [Event.reg_write 2 10240, Event.reg_write 10 xpi_cfgs.flash_base,
   Event.reg_write 11 xpi_cfgs.header, Event.reg_write 12 xpi_cfgs.opt0,
   Event.reg_write 13 xpi_cfgs.opt1, Event.reg_write 14 xpi_cfgs.xpi_base,
   Event.reg_write 32 0, Event.reg_write 1 4, Event.halt_resume false]

/-- The calls of `hpm_xpi_cmd_info` before its reload: the six configuration lines. -/
def info_prints (xpi_cfgs : hpm_xpi_cfg_t) : List Event :=
  [Event.tc_printf "  cfg_xpi_header: 0x%x \n" [xpi_cfgs.header],
   Event.tc_printf "  cfg_flash_base: 0x%x \n" [xpi_cfgs.flash_base],
   Event.tc_printf "  cfg_flash_size: 0x%x \n" [xpi_cfgs.flash_size],
   Event.tc_printf "    cfg_xpi_base: 0x%x \n" [xpi_cfgs.xpi_base],
   Event.tc_printf "        cfg_opt0: 0x%x \n" [xpi_cfgs.opt0],
   Event.tc_printf "        cfg_opt1: 0x%x \n" [xpi_cfgs.opt1]]

/-- The calls of the get-info invocation in `hpm_xpi_cmd_info` up to and including the
resume. -/
def info_frame (xpi_cfgs : hpm_xpi_cfg_t) : List Event :=
  [Event.reg_write 2 10240, Event.reg_write 10 xpi_cfgs.flash_base, Event.reg_write 11 10496,
   Event.reg_write 32 24, Event.reg_write 1 28, Event.halt_resume false]

/-- The calls of `hpm_xpi_cmd_erase` up to and including the resume, with `a2` the value
written to register 12. -/
def erase_frame (xpi_cfgs : hpm_xpi_cfg_t) (a2 : Nat) : List Event :=
  [Event.reg_write 2 10240, Event.reg_write 10 xpi_cfgs.flash_base, Event.reg_write 11 0,
   Event.reg_write 12 a2, Event.reg_write 32 6, Event.reg_write 1 10, Event.halt_resume false]

/-! ## Sessions, layout and entry stubs -/

/-- The region/configuration consistency stated for a driver state: the flash region starts
at `flash_base` and is `flash_size` long. -/
def region_consistent (st : xpi_state) : Prop :=
  st.flash.start = st.xpi_cfgs.flash_base ∧ st.flash.length = st.xpi_cfgs.flash_size

/-- A session of configuration commands: `hpm_xpi_cmd_config` is run once for each
`(argc, argv)` of the list, in order, each call on the state the previous one left. -/
def run_configs {σ : Type} (target : target_s σ) (strtoul : String → Nat) :
    List (Int × (Nat → String)) → xpi_state → σ → σ × xpi_state
  | [], st, s => (s, st)
  | cmd :: rest, st, s =>
    let r := hpm_xpi_cmd_config target strtoul cmd.1 cmd.2 st s
    run_configs target strtoul rest r.1.2 r.1.1

/-- Whether a list of RAM regions has one that starts at address 0, is at least 128 KiB
long and holds the helper image `[0, 984)`, the stack base 10240 and a sector-sized
staging buffer `[10496, 10496 + 0x1000)`. -/
def ram_holds_algo (ram : List (Nat × Nat)) : Prop :=
  ∃ r ∈ ram, r.1 = 0 ∧ 128 * 1024 ≤ r.2
    ∧ HPM_ALGO_LOAD_BASE_ADDR + hpm_flash_algo.length ≤ r.2
    ∧ HPM_ALGO_STACK_BASE_ADDR < r.2
    ∧ HPM_ALGO_BUFF_BASE_ADDR + HPM_XPI_PAGE_SIZE ≤ r.2

/-- The six entry offsets of the helper image that the driver names. -/
def entry_offsets : List Nat :=
  [HPM_FLASH_INIT, HPM_FLASH_ERASE, HPM_FLASH_PROGRAM, HPM_FLASH_READ, HPM_FLASH_GET_INFO,
   HPM_FLASH_ERASE_CHIP]

/-- The 32-bit little-endian instruction word of the helper image at offset `e`. -/
def insn32 (e : Nat) : Nat := le32 (hpm_flash_algo.drop e)

/-- The 16-bit little-endian halfword of the helper image at offset `e`. -/
def insn16 (e : Nat) : Nat := hpm_flash_algo.getD e 0 + 256 * hpm_flash_algo.getD (e + 1) 0

/-- The major opcode of a 32-bit RISC-V instruction, bits 6..0. -/
def rv_opcode (w : Nat) : Nat := w % 128

/-- The destination register of a 32-bit RISC-V instruction, bits 11..7. -/
def rv_rd (w : Nat) : Nat := (w / 128) % 32

/-- The layout of an entry stub at offset `e`: the bytes 0xEF, 0x00 open a 4-byte
instruction with the JAL opcode 0x6F and destination register 1 (`ra`), and the two bytes
after it are 0x02, 0x90, the compressed `ebreak` 0x9002. -/
def entry_stub (e : Nat) : Prop :=
  hpm_flash_algo.getD e 0 = 0xEF ∧ hpm_flash_algo.getD (e + 1) 0 = 0x00
    ∧ hpm_flash_algo.getD (e + 4) 0 = 0x02 ∧ hpm_flash_algo.getD (e + 5) 0 = 0x90
    ∧ rv_opcode (insn32 e) = 0x6F ∧ rv_rd (insn32 e) = 1 ∧ insn16 (e + 4) = 0x9002

/-! ## Chip identifier: results -/

/-- The table loop returns the name of the first row carrying the magic, and the name it
was started with when no row carries it. -/
theorem series_name_loop_first (magic : Nat) (dflt : String) (rows : List soc_map_t) :
    (∃ i : Fin rows.length, (rows.get i).magic = magic
        ∧ (∀ j : Fin rows.length, j < i → (rows.get j).magic ≠ magic)
        ∧ series_name_loop magic dflt rows = (rows.get i).series)
      ∨ ((∀ m ∈ rows, m.magic ≠ magic) ∧ series_name_loop magic dflt rows = dflt) := by
  induction rows with
  | nil => right; exact ⟨by simp, rfl⟩
  | cons m rest ih =>
    by_cases h : magic = m.magic
    · left
      refine ⟨⟨0, by simp⟩, h.symm, ?_, by simp [series_name_loop, h]⟩
      intro j hj
      exact absurd hj (Nat.not_lt_zero _)
    · have hne : m.magic ≠ magic := fun e => h e.symm
      rcases ih with ⟨i, hi, hfirst, hres⟩ | ⟨hall, hres⟩
      · left
        refine ⟨⟨i.val + 1, by simp⟩, by simpa using hi, ?_, by simpa [series_name_loop, h] using hres⟩
        intro j hj
        rcases j with ⟨jv, hjv⟩
        cases jv with
        | zero => simpa using hne
        | succ n =>
          have hn : n < rest.length := by simpa using hjv
          have := hfirst ⟨n, hn⟩ (by
            have : n + 1 < i.val + 1 := hj
            exact Fin.mk_lt_of_lt_val (by omega))
          simpa using this
      · right
        refine ⟨?_, by simpa [series_name_loop, h] using hres⟩
        intro x hx
        rcases List.mem_cons.mp hx with rfl | hx
        · exact hne
        · exact hall x hx

/-- C4: for every magic, `hpm_get_series_name` is the family name of the first row of
`hpm_soc_maps` that carries the magic, and "Unknown" when no row carries it; both
revisions of the 6700 map to "hpm6700", 0x10000500 to "hpm6200", and 0xffffffff and 0 to
"Unknown". -/
theorem hpm_get_series_name_first_match (magic : Nat) :
    ((∃ i : Fin hpm_soc_maps.length, (hpm_soc_maps.get i).magic = magic
          ∧ (∀ j : Fin hpm_soc_maps.length, j < i → (hpm_soc_maps.get j).magic ≠ magic)
          ∧ hpm_get_series_name magic = (hpm_soc_maps.get i).series)
        ∨ ((∀ m ∈ hpm_soc_maps, m.magic ≠ magic) ∧ hpm_get_series_name magic = "Unknown"))
      ∧ hpm_get_series_name 0x2001f398 = "hpm6700"
      ∧ hpm_get_series_name 0x2001fa40 = "hpm6700"
      ∧ hpm_get_series_name 0x10000500 = "hpm6200"
      ∧ hpm_get_series_name 0xffffffff = "Unknown"
      ∧ hpm_get_series_name 0 = "Unknown" :=
  ⟨series_name_loop_first magic "Unknown" hpm_soc_maps, by decide, by decide, by decide,
    by decide, by decide⟩

/-- On the simulated target a 32-bit read leaves the world as it is and yields the word
that memory holds at the address. -/
theorem sim_read_u32 (halted : Nat → Bool) (reg_value : Nat → Nat) (w : sim_s) (addr : Nat) :
    hpm_read_u32_via_sysbus (sim halted reg_value) w addr = (w, word_at w.mem addr) := by
  simp [hpm_read_u32_via_sysbus, sim, word_at, List.range, List.range.loop]

/-- The legacy probe loop on the simulated target: the first listed address whose word is
the tag, otherwise the value it was started with; the world is unchanged. -/
theorem sim_soc_set_loop (halted : Nat → Bool) (reg_value : Nat → Nat) (tag dflt : Nat)
    (w : sim_s) (addrs : List Nat) :
    soc_set_loop (sim halted reg_value) tag dflt w addrs
      = (w, (addrs.find? (fun a => decide (word_at w.mem a = tag))).getD dflt) := by
  induction addrs with
  | nil => rfl
  | cons a rest ih =>
    by_cases h : word_at w.mem a = tag
    · simp [soc_set_loop, sim_read_u32, List.find?, h]
    · simp [soc_set_loop, sim_read_u32, List.find?, h, ih]

/-- C5: on a target with memory `w.mem`, `hpm_get_soc_magic` is the word at 0x2001FF30
when that word is non-zero; otherwise the first address of `hpm_soc_set` whose word is the
tag 0x022010bf; otherwise 0xffffffff. -/
theorem hpm_get_soc_magic_result (halted : Nat → Bool) (reg_value : Nat → Nat) (w : sim_s) :
    (hpm_get_soc_magic (sim halted reg_value) w).2
      = if word_at w.mem 0x2001FF30 ≠ 0 then word_at w.mem 0x2001FF30
        else match hpm_soc_set.find? (fun a => decide (word_at w.mem a = 0x022010bf)) with
          | some a => a
          | none => 0xffffffff := by
  have hroot : u32 (ROM_API_TABLE_ROOT + 0x30) = 0x2001FF30 := by decide
  unfold hpm_get_soc_magic
  simp only [hroot, sim_read_u32, sim_soc_set_loop]
  by_cases h : word_at w.mem 0x2001FF30 = 0
  · simp only [h, ne_eq, not_true_eq_false, if_false]
    cases hpm_soc_set.find? (fun a => decide (word_at w.mem a = 0x022010bf)) <;> rfl
  · simp [h]

/-! ## Configuration command: results -/

/-- C6: `hpm_xpi_cmd_config` with 3, 4 or 5 arguments (`argc` 4, 5, 6) whose parsed
values fit the 32-bit fields returns true, sets `flash_base`, `flash_size`, `xpi_base`
(and the flash region's start and length) from arguments 1..3, and sets header, opt0,
opt1 to (0xfcf90001, 7, 0), to (0xfcf90001 + 1, argument 4, 0), and to
(0xfcf90001 + 1, argument 4, argument 5) respectively. -/
theorem hpm_xpi_cmd_config_accepts {σ : Type} (target : target_s σ) (strtoul : String → Nat)
    (argv : Nat → String) (st : xpi_state) (s : σ)
    (h1 : strtoul (argv 1) < 2 ^ 32) (h2 : strtoul (argv 2) < 2 ^ 32)
    (h3 : strtoul (argv 3) < 2 ^ 32) :
    hpm_xpi_cmd_config target strtoul 4 argv st s
        = ((s, { xpi_cfgs := { st.xpi_cfgs with
                    flash_base := strtoul (argv 1), flash_size := strtoul (argv 2),
                    xpi_base := strtoul (argv 3), header := 0xfcf90001, opt0 := 7, opt1 := 0 },
                 flash := { st.flash with
                    start := strtoul (argv 1), length := strtoul (argv 2) } }), true)
      ∧ (strtoul (argv 4) < 2 ^ 32 →
          hpm_xpi_cmd_config target strtoul 5 argv st s
            = ((s, { xpi_cfgs := { st.xpi_cfgs with
                        flash_base := strtoul (argv 1), flash_size := strtoul (argv 2),
                        xpi_base := strtoul (argv 3), header := 0xfcf90001 + 1,
                        opt0 := strtoul (argv 4), opt1 := 0 },
                     flash := { st.flash with
                        start := strtoul (argv 1), length := strtoul (argv 2) } }), true))
      ∧ (strtoul (argv 4) < 2 ^ 32 → strtoul (argv 5) < 2 ^ 32 →
          hpm_xpi_cmd_config target strtoul 6 argv st s
            = ((s, { xpi_cfgs := { st.xpi_cfgs with
                        flash_base := strtoul (argv 1), flash_size := strtoul (argv 2),
                        xpi_base := strtoul (argv 3), header := 0xfcf90001 + 1,
                        opt0 := strtoul (argv 4), opt1 := strtoul (argv 5) },
                     flash := { st.flash with
                        start := strtoul (argv 1), length := strtoul (argv 2) } }), true)) := by
  have e1 : u32 (strtoul (argv 1)) = strtoul (argv 1) := Nat.mod_eq_of_lt h1
  have e2 : u32 (strtoul (argv 2)) = strtoul (argv 2) := Nat.mod_eq_of_lt h2
  have e3 : u32 (strtoul (argv 3)) = strtoul (argv 3) := Nat.mod_eq_of_lt h3
  have eh : u32 (HPM_XPI_HDR_DEFAULT + 1) = 0xfcf90001 + 1 := by decide
  refine ⟨?_, ?_, ?_⟩
  · simp [hpm_xpi_cmd_config, e1, e2, e3, HPM_XPI_HDR_DEFAULT, HPM_XPI_OPT0_DEFAULT,
      HPM_XPI_OPT1_DEFAULT]
  · intro h4
    have e4 : u32 (strtoul (argv 4)) = strtoul (argv 4) := Nat.mod_eq_of_lt h4
    simp [hpm_xpi_cmd_config, e1, e2, e3, e4, eh, HPM_XPI_OPT1_DEFAULT]
  · intro h4 h5
    have e4 : u32 (strtoul (argv 4)) = strtoul (argv 4) := Nat.mod_eq_of_lt h4
    have e5 : u32 (strtoul (argv 5)) = strtoul (argv 5) := Nat.mod_eq_of_lt h5
    simp [hpm_xpi_cmd_config, e1, e2, e3, e4, e5, eh]

/-- C7: for every `argc` outside 4..6 and every prior state, `hpm_xpi_cmd_config` returns
false and leaves every field of `xpi_cfgs` and of the flash region as it was; the only
effect is the message. -/
theorem hpm_xpi_cmd_config_rejects {σ : Type} (target : target_s σ) (strtoul : String → Nat)
    (argc : Int) (argv : Nat → String) (st : xpi_state) (s : σ) (h : argc < 4 ∨ argc > 6) :
    hpm_xpi_cmd_config target strtoul argc argv st s
      = ((target.tc_printf s "xpi_cfg args invalid \n" [], st), false) := by
  simp [hpm_xpi_cmd_config, h]

/-- A concrete run of C6 with three, four and five arguments. -/
theorem hpm_xpi_cmd_config_accepts_witness :
    (strtoul_dec (argv_example 1) < 2 ^ 32 ∧ strtoul_dec (argv_example 2) < 2 ^ 32
        ∧ strtoul_dec (argv_example 3) < 2 ^ 32)
      ∧ (hpm_xpi_cmd_config (sim (fun _ => true) (fun _ => 0)) strtoul_dec 4 argv_example
            xpi_state_default sim_zero).2 = true
      ∧ (hpm_xpi_cmd_config (sim (fun _ => true) (fun _ => 0)) strtoul_dec 6 argv_example
            xpi_state_default sim_zero).1.2.xpi_cfgs
          = { header := 0xfcf90002, xpi_base := 0xF3000000, flash_base := 0x90000000,
              flash_size := 0x1000000, sector_size := 0x1000, opt0 := 5, opt1 := 0x1000 } := by
  have h := hpm_xpi_cmd_config_accepts (sim (fun _ => true) (fun _ => 0)) strtoul_dec
    argv_example xpi_state_default sim_zero (by decide) (by decide) (by decide)
  refine ⟨⟨by decide, by decide, by decide⟩, ?_, ?_⟩
  · rw [h.1]
  · rw [h.2.2 (by decide) (by decide)]
    decide

/-- A concrete run of C7: two arguments, and seven. -/
theorem hpm_xpi_cmd_config_rejects_witness :
    ((2 : Int) < 4 ∨ (2 : Int) > 6)
      ∧ hpm_xpi_cmd_config (sim (fun _ => true) (fun _ => 0)) strtoul_dec 2 argv_example
            xpi_state_default sim_zero
          = (((sim (fun _ => true) (fun _ => 0)).tc_printf sim_zero "xpi_cfg args invalid \n" [],
              xpi_state_default), false)
      ∧ hpm_xpi_cmd_config (sim (fun _ => true) (fun _ => 0)) strtoul_dec 8 argv_example
            xpi_state_default sim_zero
          = (((sim (fun _ => true) (fun _ => 0)).tc_printf sim_zero "xpi_cfg args invalid \n" [],
              xpi_state_default), false) :=
  ⟨by decide,
   hpm_xpi_cmd_config_rejects (sim (fun _ => true) (fun _ => 0)) strtoul_dec 2 argv_example
     xpi_state_default sim_zero (by decide),
   hpm_xpi_cmd_config_rejects (sim (fun _ => true) (fun _ => 0)) strtoul_dec 8 argv_example
     xpi_state_default sim_zero (by decide)⟩

/-! ## The dispatcher: outcome -/

/-- The shared tail reports success exactly when register 10 reads 0 and the counter
stayed below the budget. -/
theorem hpm_algo_finish_true_iff {σ : Type} (target : target_s σ) (budget : Nat) (s : σ) :
    (hpm_algo_finish target budget s).2 = true
      ↔ a0_at_exit target budget s = 0 ∧ exit_counter target budget s < budget := by
  unfold hpm_algo_finish a0_at_exit exit_counter
  by_cases h : (target.reg_read (hpm_algo_poll target budget s 0).1 10).2 ≠ 0
      ∨ (hpm_algo_poll target budget s 0).2 ≥ budget
  · simp only [h, if_true]
    constructor
    · intro hf; exact absurd hf (by simp)
    · rintro ⟨h0, hlt⟩
      rcases h with h | h
      · exact absurd h0 h
      · omega
  · simp only [h, if_false, true_iff]
    push_neg at h
    exact h

/-- C1: each dispatching operation returns true if and only if the value read from
register 10 after the poll loop is 0 and the iteration counter at loop exit is below the
operation's budget (500 for init and prepare, 100000 for the two erases, 10000 for write),
whatever the debug link does; so a non-zero register 10 gives false for every counter, and
an exhausted budget gives false for every register value. -/
theorem dispatch_success_iff {σ : Type} (target : target_s σ) (xpi_cfgs : hpm_xpi_cfg_t)
    (flash_length addr dest len : Nat) (src : List Nat) (s : σ) :
    ((hpm_xpi_cmd_init target xpi_cfgs s).2 = true
        ↔ a0_at_exit target 500 (hpm_xpi_cmd_init_call target xpi_cfgs s) = 0
          ∧ exit_counter target 500 (hpm_xpi_cmd_init_call target xpi_cfgs s) < 500)
      ∧ ((hpm_xpi_flash_prepare target xpi_cfgs s).2 = true
        ↔ a0_at_exit target 500 (hpm_xpi_flash_prepare_call target xpi_cfgs s) = 0
          ∧ exit_counter target 500 (hpm_xpi_flash_prepare_call target xpi_cfgs s) < 500)
      ∧ ((hpm_xpi_flash_erase target xpi_cfgs addr len s).2 = true
        ↔ a0_at_exit target 100000 (hpm_xpi_flash_erase_call target xpi_cfgs addr len s) = 0
          ∧ exit_counter target 100000 (hpm_xpi_flash_erase_call target xpi_cfgs addr len s)
              < 100000)
      ∧ ((hpm_xpi_cmd_erase target xpi_cfgs flash_length s).2 = true
        ↔ a0_at_exit target 100000 (hpm_xpi_cmd_erase_call target xpi_cfgs flash_length s) = 0
          ∧ exit_counter target 100000 (hpm_xpi_cmd_erase_call target xpi_cfgs flash_length s)
              < 100000)
      ∧ ((hpm_xpi_flash_write target xpi_cfgs dest src len s).2 = true
        ↔ a0_at_exit target 10000 (hpm_xpi_flash_write_call target xpi_cfgs dest src len s) = 0
          ∧ exit_counter target 10000 (hpm_xpi_flash_write_call target xpi_cfgs dest src len s)
              < 10000) :=
  ⟨hpm_algo_finish_true_iff target 500 _, hpm_algo_finish_true_iff target 500 _,
   hpm_algo_finish_true_iff target 100000 _, hpm_algo_finish_true_iff target 100000 _,
   hpm_algo_finish_true_iff target 10000 _⟩

/-! ## The poll loop on the simulated target -/

/-- When the polls of a simulated target answer running `k` times and then halted, and the
counter may still advance `k` times, the loop polls `k + 1` times, sleeps `k` times one
unit and leaves with the counter advanced by `k`. -/
theorem sim_poll_halts (halted : Nat → Bool) (reg_value : Nat → Nat) (budget : Nat) :
    ∀ (k : Nat) (w : sim_s) (t : Nat), t + k ≤ budget →
      (∀ i, i < k → halted (w.polls + i) = false) → halted (w.polls + k) = true →
      hpm_algo_poll (sim halted reg_value) budget w t
        = ({ w with polls := w.polls + k + 1, slept := w.slept + k }, t + k) := by
  intro k
  induction k with
  | zero =>
    intro w t _ _ hhalt
    rw [hpm_algo_poll]
    have hh : halted w.polls = true := by simpa using hhalt
    simp [sim, hh]
  | succ k ih =>
    intro w t hle hrun hhalt
    rw [hpm_algo_poll]
    have h0 : halted w.polls = false := by simpa using hrun 0 (Nat.succ_pos k)
    have hlt : t < budget := by omega
    have hstep := ih { w with polls := w.polls + 1, slept := w.slept + 1 } (t + 1) (by omega)
      (fun i hi => by
        have := hrun (i + 1) (by omega)
        simpa [Nat.add_assoc, Nat.add_comm 1 i] using this)
      (by simpa [Nat.add_assoc, Nat.add_comm 1 k] using hhalt)
    simp only [sim, h0, hlt, if_true, Bool.false_eq_true, if_false]
    simp only [sim] at hstep
    rw [hstep]
    simp [Nat.add_assoc, Nat.add_comm 1 k]

/-- When every poll a simulated target can be asked answers running, the loop started with
the counter at `t ≤ budget` polls and sleeps `budget + 1 - t` times and leaves with the
counter at `budget + 1`. -/
theorem sim_poll_exhausts (halted : Nat → Bool) (reg_value : Nat → Nat) (budget : Nat) :
    ∀ (n : Nat) (w : sim_s) (t : Nat), t + n = budget →
      (∀ i, i ≤ n → halted (w.polls + i) = false) →
      hpm_algo_poll (sim halted reg_value) budget w t
        = ({ w with polls := w.polls + (n + 1), slept := w.slept + (n + 1) }, budget + 1) := by
  intro n
  induction n with
  | zero =>
    intro w t ht hrun
    rw [hpm_algo_poll]
    have h0 : halted w.polls = false := by simpa using hrun 0 (Nat.le_refl 0)
    have hlt : ¬ t < budget := by omega
    have : t = budget := by omega
    simp [sim, h0, hlt, this]
  | succ n ih =>
    intro w t ht hrun
    rw [hpm_algo_poll]
    have h0 : halted w.polls = false := by simpa using hrun 0 (Nat.zero_le _)
    have hlt : t < budget := by omega
    have hstep := ih { w with polls := w.polls + 1, slept := w.slept + 1 } (t + 1) (by omega)
      (fun i hi => by
        have := hrun (i + 1) (by omega)
        simpa [Nat.add_assoc, Nat.add_comm 1 i] using this)
    simp only [sim, h0, hlt, if_true, Bool.false_eq_true, if_false]
    simp only [sim] at hstep
    rw [hstep]
    have e : ∀ a : Nat, a + 1 + (n + 1) = a + (n + 1 + 1) := fun a => by omega
    simp only [e]

/-- The shared tail on a simulated target that never reports halted: failure, after
`budget + 1` polls and as many sleeps, with the counter at `budget + 1`. -/
theorem sim_finish_never (reg_value : Nat → Nat) (budget : Nat) (w : sim_s) :
    hpm_algo_finish (sim (fun _ => false) reg_value) budget w
        = ({ w with polls := w.polls + (budget + 1), slept := w.slept + (budget + 1) }, false)
      ∧ exit_counter (sim (fun _ => false) reg_value) budget w = budget + 1 := by
  have h := sim_poll_exhausts (fun _ => false) reg_value budget budget w 0 (by omega)
    (fun _ _ => rfl)
  constructor
  · unfold hpm_algo_finish
    rw [h]
    simp [sim]
  · unfold exit_counter
    rw [h]

/-- The shared tail on a simulated target that answers running `k < budget` times and then
halted, with register 10 reading 0: success, the counter at `k`, after `k + 1` polls and
`k` sleeps of one unit. -/
theorem sim_finish_halts (halted : Nat → Bool) (reg_value : Nat → Nat) (budget k : Nat)
    (w : sim_s) (hk : k < budget) (hrun : ∀ i, i < k → halted (w.polls + i) = false)
    (hhalt : halted (w.polls + k) = true) (ha0 : reg_value 10 = 0) :
    hpm_algo_finish (sim halted reg_value) budget w
        = ({ w with polls := w.polls + k + 1, slept := w.slept + k }, true)
      ∧ exit_counter (sim halted reg_value) budget w = k := by
  have h := sim_poll_halts halted reg_value budget k w 0 (by omega) hrun hhalt
  constructor
  · unfold hpm_algo_finish
    rw [h]
    have : ¬ k ≥ budget := by omega
    simp [sim, ha0, this]
  · unfold exit_counter
    rw [h]
    simp

/-- C2 (what the code does): on a simulated target whose halt poll never reports halted,
init, prepare, both erases and write return false after polling `budget + 1` times (501,
501, 100001, 100001, 10001), one more than the budget, with as many sleeps of one unit,
and the counter is at `budget + 1` at loop exit. -/
theorem never_halted_polls_budget_plus_one (reg_value : Nat → Nat) (xpi_cfgs : hpm_xpi_cfg_t)
    (flash_length addr dest len : Nat) (src : List Nat) (w : sim_s) :
    ((hpm_xpi_cmd_init (sim (fun _ => false) reg_value) xpi_cfgs w).2 = false
        ∧ (hpm_xpi_cmd_init (sim (fun _ => false) reg_value) xpi_cfgs w).1.polls = w.polls + 501
        ∧ (hpm_xpi_cmd_init (sim (fun _ => false) reg_value) xpi_cfgs w).1.slept = w.slept + 501)
      ∧ ((hpm_xpi_flash_prepare (sim (fun _ => false) reg_value) xpi_cfgs w).2 = false
        ∧ (hpm_xpi_flash_prepare (sim (fun _ => false) reg_value) xpi_cfgs w).1.polls
            = w.polls + 501
        ∧ (hpm_xpi_flash_prepare (sim (fun _ => false) reg_value) xpi_cfgs w).1.slept
            = w.slept + 501)
      ∧ ((hpm_xpi_flash_erase (sim (fun _ => false) reg_value) xpi_cfgs addr len w).2 = false
        ∧ (hpm_xpi_flash_erase (sim (fun _ => false) reg_value) xpi_cfgs addr len w).1.polls
            = w.polls + 100001
        ∧ (hpm_xpi_flash_erase (sim (fun _ => false) reg_value) xpi_cfgs addr len w).1.slept
            = w.slept + 100001)
      ∧ ((hpm_xpi_cmd_erase (sim (fun _ => false) reg_value) xpi_cfgs flash_length w).2 = false
        ∧ (hpm_xpi_cmd_erase (sim (fun _ => false) reg_value) xpi_cfgs flash_length w).1.polls
            = w.polls + 100001
        ∧ (hpm_xpi_cmd_erase (sim (fun _ => false) reg_value) xpi_cfgs flash_length w).1.slept
            = w.slept + 100001)
      ∧ ((hpm_xpi_flash_write (sim (fun _ => false) reg_value) xpi_cfgs dest src len w).2 = false
        ∧ (hpm_xpi_flash_write (sim (fun _ => false) reg_value) xpi_cfgs dest src len w).1.polls
            = w.polls + 10001
        ∧ (hpm_xpi_flash_write (sim (fun _ => false) reg_value) xpi_cfgs dest src len w).1.slept
            = w.slept + 10001)
      ∧ exit_counter (sim (fun _ => false) reg_value) 500
          (hpm_xpi_cmd_init_call (sim (fun _ => false) reg_value) xpi_cfgs w) = 501 := by
  refine ⟨?_, ?_, ?_, ?_, ?_, ?_⟩
  · unfold hpm_xpi_cmd_init
    rw [(sim_finish_never reg_value HPM_ALGO_CMD_TIMEOUT _).1]
    exact ⟨rfl, rfl, rfl⟩
  · unfold hpm_xpi_flash_prepare
    rw [(sim_finish_never reg_value HPM_ALGO_CMD_TIMEOUT _).1]
    exact ⟨rfl, rfl, rfl⟩
  · unfold hpm_xpi_flash_erase
    rw [(sim_finish_never reg_value HPM_ALGO_ERASE_TIMEOUT _).1]
    exact ⟨rfl, rfl, rfl⟩
  · unfold hpm_xpi_cmd_erase
    rw [(sim_finish_never reg_value HPM_ALGO_ERASE_TIMEOUT _).1]
    exact ⟨rfl, rfl, rfl⟩
  · unfold hpm_xpi_flash_write
    rw [(sim_finish_never reg_value HPM_ALGO_WRITE_TIMEOUT _).1]
    exact ⟨rfl, rfl, rfl⟩
  · exact (sim_finish_never reg_value 500 _).2

/-- C3: on a simulated target that answers running on the first `k` polls of an operation
and halted on the next, with register 10 reading 0, init, prepare, erase and write report
success whenever `k` is below the operation's budget (500, 500, 100000, 10000); the
counter at loop exit is exactly `k`, `k` sleeps of one unit were taken and `k + 1` polls
were made. -/
theorem dispatch_halts_after_k (halted : Nat → Bool) (reg_value : Nat → Nat)
    (xpi_cfgs : hpm_xpi_cfg_t) (addr dest len : Nat) (src : List Nat) (w : sim_s) (k : Nat)
    (hrun : ∀ i, i < k → halted (w.polls + i) = false) (hhalt : halted (w.polls + k) = true)
    (ha0 : reg_value 10 = 0) :
    (k < 500 →
        (hpm_xpi_cmd_init (sim halted reg_value) xpi_cfgs w).2 = true
        ∧ exit_counter (sim halted reg_value) 500
            (hpm_xpi_cmd_init_call (sim halted reg_value) xpi_cfgs w) = k
        ∧ (hpm_xpi_cmd_init (sim halted reg_value) xpi_cfgs w).1.slept = w.slept + k
        ∧ (hpm_xpi_cmd_init (sim halted reg_value) xpi_cfgs w).1.polls = w.polls + k + 1)
      ∧ (k < 500 →
        (hpm_xpi_flash_prepare (sim halted reg_value) xpi_cfgs w).2 = true
        ∧ exit_counter (sim halted reg_value) 500
            (hpm_xpi_flash_prepare_call (sim halted reg_value) xpi_cfgs w) = k
        ∧ (hpm_xpi_flash_prepare (sim halted reg_value) xpi_cfgs w).1.slept = w.slept + k
        ∧ (hpm_xpi_flash_prepare (sim halted reg_value) xpi_cfgs w).1.polls = w.polls + k + 1)
      ∧ (k < 100000 →
        (hpm_xpi_flash_erase (sim halted reg_value) xpi_cfgs addr len w).2 = true
        ∧ exit_counter (sim halted reg_value) 100000
            (hpm_xpi_flash_erase_call (sim halted reg_value) xpi_cfgs addr len w) = k
        ∧ (hpm_xpi_flash_erase (sim halted reg_value) xpi_cfgs addr len w).1.slept = w.slept + k
        ∧ (hpm_xpi_flash_erase (sim halted reg_value) xpi_cfgs addr len w).1.polls
            = w.polls + k + 1)
      ∧ (k < 10000 →
        (hpm_xpi_flash_write (sim halted reg_value) xpi_cfgs dest src len w).2 = true
        ∧ exit_counter (sim halted reg_value) 10000
            (hpm_xpi_flash_write_call (sim halted reg_value) xpi_cfgs dest src len w) = k
        ∧ (hpm_xpi_flash_write (sim halted reg_value) xpi_cfgs dest src len w).1.slept
            = w.slept + k
        ∧ (hpm_xpi_flash_write (sim halted reg_value) xpi_cfgs dest src len w).1.polls
            = w.polls + k + 1) := by
  refine ⟨fun hk => ?_, fun hk => ?_, fun hk => ?_, fun hk => ?_⟩
  · have h := sim_finish_halts halted reg_value 500 k
      (hpm_xpi_cmd_init_call (sim halted reg_value) xpi_cfgs w) hk hrun hhalt ha0
    unfold hpm_xpi_cmd_init
    rw [show HPM_ALGO_CMD_TIMEOUT = 500 from rfl, h.1]
    exact ⟨rfl, h.2, rfl, rfl⟩
  · have h := sim_finish_halts halted reg_value 500 k
      (hpm_xpi_flash_prepare_call (sim halted reg_value) xpi_cfgs w) hk hrun hhalt ha0
    unfold hpm_xpi_flash_prepare
    rw [show HPM_ALGO_CMD_TIMEOUT = 500 from rfl, h.1]
    exact ⟨rfl, h.2, rfl, rfl⟩
  · have h := sim_finish_halts halted reg_value 100000 k
      (hpm_xpi_flash_erase_call (sim halted reg_value) xpi_cfgs addr len w) hk hrun hhalt ha0
    unfold hpm_xpi_flash_erase
    rw [show HPM_ALGO_ERASE_TIMEOUT = 100000 from rfl, h.1]
    exact ⟨rfl, h.2, rfl, rfl⟩
  · have h := sim_finish_halts halted reg_value 10000 k
      (hpm_xpi_flash_write_call (sim halted reg_value) xpi_cfgs dest src len w) hk hrun hhalt ha0
    unfold hpm_xpi_flash_write
    rw [show HPM_ALGO_WRITE_TIMEOUT = 10000 from rfl, h.1]
    exact ⟨rfl, h.2, rfl, rfl⟩

/-- A concrete run of C3: halted on the fourth poll of an init, after three sleeps. -/
theorem dispatch_halts_after_k_witness :
    ((∀ i, i < 3 → (fun n => decide (3 ≤ n)) (sim_zero.polls + i) = false)
        ∧ (fun n => decide (3 ≤ n)) (sim_zero.polls + 3) = true
        ∧ (fun _ => 0) 10 = 0 ∧ 3 < 500)
      ∧ (hpm_xpi_cmd_init (sim (fun n => decide (3 ≤ n)) (fun _ => 0)) xpi_state_default.xpi_cfgs
            sim_zero).2 = true
      ∧ exit_counter (sim (fun n => decide (3 ≤ n)) (fun _ => 0)) 500
            (hpm_xpi_cmd_init_call (sim (fun n => decide (3 ≤ n)) (fun _ => 0))
              xpi_state_default.xpi_cfgs sim_zero) = 3
      ∧ (hpm_xpi_cmd_init (sim (fun n => decide (3 ≤ n)) (fun _ => 0)) xpi_state_default.xpi_cfgs
            sim_zero).1.slept = sim_zero.slept + 3
      ∧ (hpm_xpi_cmd_init (sim (fun n => decide (3 ≤ n)) (fun _ => 0)) xpi_state_default.xpi_cfgs
            sim_zero).1.polls = sim_zero.polls + 3 + 1 :=
  ⟨⟨by decide, by decide, rfl, by decide⟩,
   (dispatch_halts_after_k (fun n => decide (3 ≤ n)) (fun _ => 0) xpi_state_default.xpi_cfgs
      0 0 0 [] sim_zero 3 (by decide) (by decide) rfl).1 (by decide)⟩

/-! ## The calls an operation makes on the link -/

/-- Under the recorder the poll loop only appends polls and delays to the log. -/
theorem spy_poll_log {σ : Type} (target : target_s σ) (budget : Nat) :
    ∀ (n : Nat) (w : σ × List Event) (t : Nat), budget - t = n →
      ∃ rest, (hpm_algo_poll (spy target) budget w t).1.2 = w.2 ++ rest
        ∧ ∀ e ∈ rest, e.isWait = true := by
  intro n
  induction n with
  | zero =>
    intro w t hn
    rw [hpm_algo_poll]
    have hlt : ¬ t < budget := by omega
    cases hp : (target.halt_poll w.1).2
    · refine ⟨[Event.halt_poll, Event.platform_delay 1], ?_, ?_⟩
      · simp [spy, hp, hlt]
      · intro e he
        simp at he
        rcases he with rfl | rfl <;> rfl
    · refine ⟨[Event.halt_poll], ?_, ?_⟩
      · simp [spy, hp]
      · intro e he
        simp at he
        subst he
        rfl
  | succ n ih =>
    intro w t hn
    rw [hpm_algo_poll]
    have hlt : t < budget := by omega
    cases hp : (target.halt_poll w.1).2
    · obtain ⟨rest, hrest, hwait⟩ := ih
        ((target.platform_delay (target.halt_poll w.1).1 1,
          w.2 ++ [Event.halt_poll] ++ [Event.platform_delay 1])) (t + 1) (by omega)
      refine ⟨[Event.halt_poll, Event.platform_delay 1] ++ rest, ?_, ?_⟩
      · simp only [spy, hp, hlt, if_true, Bool.false_eq_true, if_false]
        simp only [spy] at hrest
        rw [hrest]
        simp
      · intro e he
        rcases List.mem_append.mp he with he | he
        · simp at he
          rcases he with rfl | rfl <;> rfl
        · exact hwait e he
    · refine ⟨[Event.halt_poll], ?_, ?_⟩
      · simp [spy, hp]
      · intro e he
        simp at he
        subst he
        rfl

/-- Under the recorder the shared tail only appends polls, delays and the read of
register 10 to the log. -/
theorem spy_finish_log {σ : Type} (target : target_s σ) (budget : Nat) (w : σ × List Event) :
    ∃ rest, (hpm_algo_finish (spy target) budget w).1.2 = w.2 ++ rest
      ∧ ∀ e ∈ rest, e.isWait = true := by
  obtain ⟨rest, hrest, hwait⟩ := spy_poll_log target budget (budget - 0) w 0 rfl
  refine ⟨rest ++ [Event.reg_read 10], ?_, ?_⟩
  · have hlog : (hpm_algo_finish (spy target) budget w).1.2
        = (hpm_algo_poll (spy target) budget w 0).1.2 ++ [Event.reg_read 10] := by
      unfold hpm_algo_finish
      simp only []
      split <;> simp [spy]
    rw [hlog, hrest, List.append_assoc]
  · intro e he
    rcases List.mem_append.mp he with he | he
    · exact hwait e he
    · simp at he
      subst he
      rfl

/-- The 32-bit difference that the driver computes is the mathematical difference
modulo `2 ^ 32`. -/
theorem sub32_eq_int_emod (a b : Nat) :
    ((sub32 a b : Nat) : Int) = ((a : Int) - (b : Int)) % 2 ^ 32 := by
  unfold sub32 u32
  norm_num
  omega

/-- C8: `hpm_xpi_flash_erase(addr, len)` with `len` a 32-bit length makes, before anything
else, the register writes a0 (10) = `flash_base`, a1 (11) = `addr - flash_base` modulo
`2 ^ 32`, a2 (12) = `len`, sp (2) = 10240, pc (32) = load base + 0x6 and ra (1), then
resumes the CPU; every later call is a poll, a delay or the read of register 10. -/
theorem hpm_xpi_flash_erase_frame {σ : Type} (target : target_s σ) (xpi_cfgs : hpm_xpi_cfg_t)
    (addr len : Nat) (s : σ) (hlen : len < 2 ^ 32) :
    ∃ a1 rest,
      (hpm_xpi_flash_erase (spy target) xpi_cfgs addr len (s, [])).1.2
          = [Event.reg_write 10 xpi_cfgs.flash_base, Event.reg_write 11 a1,
             Event.reg_write 12 len, Event.reg_write 2 10240,
             Event.reg_write 32 (HPM_ALGO_LOAD_BASE_ADDR + 0x6), Event.reg_write 1 28,
             Event.halt_resume false] ++ rest
        ∧ (a1 : Int) = ((addr : Int) - (xpi_cfgs.flash_base : Int)) % 2 ^ 32
        ∧ ∀ e ∈ rest, e.isWait = true := by
  obtain ⟨rest, hrest, hwait⟩ := spy_finish_log target HPM_ALGO_ERASE_TIMEOUT
    (hpm_xpi_flash_erase_call (spy target) xpi_cfgs addr len (s, []))
  refine ⟨sub32 addr xpi_cfgs.flash_base, rest, ?_, sub32_eq_int_emod _ _, hwait⟩
  have hl : u32 len = len := Nat.mod_eq_of_lt hlen
  unfold hpm_xpi_flash_erase
  rw [hrest]
  simp [hpm_xpi_flash_erase_call, spy, hl, HPM_ALGO_STACK_BASE_ADDR, HPM_ALGO_LOAD_BASE_ADDR,
    HPM_FLASH_ERASE, HPM_FLASH_GET_INFO]

/-- A concrete run of C8: erasing 4096 bytes at 0x80010000 with the default window. -/
theorem hpm_xpi_flash_erase_frame_witness :
    (4096 < 2 ^ 32)
      ∧ ∃ a1 rest,
        (hpm_xpi_flash_erase (spy (sim (fun _ => true) (fun _ => 0))) xpi_state_default.xpi_cfgs
            0x80010000 4096 (sim_zero, [])).1.2
          = [Event.reg_write 10 xpi_state_default.xpi_cfgs.flash_base, Event.reg_write 11 a1,
             Event.reg_write 12 4096, Event.reg_write 2 10240,
             Event.reg_write 32 (HPM_ALGO_LOAD_BASE_ADDR + 0x6), Event.reg_write 1 28,
             Event.halt_resume false] ++ rest
        ∧ (a1 : Int)
            = (((0x80010000 : Nat) : Int) - (xpi_state_default.xpi_cfgs.flash_base : Int)) % 2 ^ 32
        ∧ ∀ e ∈ rest, e.isWait = true :=
  ⟨by decide,
   hpm_xpi_flash_erase_frame (sim (fun _ => true) (fun _ => 0)) xpi_state_default.xpi_cfgs
     0x80010000 4096 sim_zero (by decide)⟩

/-- C9: `hpm_xpi_flash_write(dest, src, len)` with `len` a 32-bit length first writes the
`len` data bytes to target memory at 10496 = load base + 10240 + 256, then writes a0 (10) =
`flash_base`, a1 (11) = `dest - flash_base` modulo `2 ^ 32`, a2 (12) = 10496, a3 (13) =
`len`, sp, pc (32) = load base + 0xC and ra, then resumes the CPU; every later call is a
poll, a delay or the read of register 10, so the memory write precedes every register
write and the resume. -/
theorem hpm_xpi_flash_write_frame {σ : Type} (target : target_s σ) (xpi_cfgs : hpm_xpi_cfg_t)
    (dest : Nat) (src : List Nat) (len : Nat) (s : σ) (hlen : len < 2 ^ 32) :
    ∃ a1 rest,
      (hpm_xpi_flash_write (spy target) xpi_cfgs dest src len (s, [])).1.2
          = [Event.mem_write 10496 (src.take len),
             Event.reg_write 10 xpi_cfgs.flash_base, Event.reg_write 11 a1,
             Event.reg_write 12 10496, Event.reg_write 13 len, Event.reg_write 2 10240,
             Event.reg_write 32 (HPM_ALGO_LOAD_BASE_ADDR + 0xC), Event.reg_write 1 16,
             Event.halt_resume false] ++ rest
        ∧ (a1 : Int) = ((dest : Int) - (xpi_cfgs.flash_base : Int)) % 2 ^ 32
        ∧ HPM_ALGO_BUFF_BASE_ADDR = 10496
        ∧ HPM_ALGO_LOAD_BASE_ADDR + 10240 + 256 = 10496
        ∧ ∀ e ∈ rest, e.isWait = true := by
  obtain ⟨rest, hrest, hwait⟩ := spy_finish_log target HPM_ALGO_WRITE_TIMEOUT
    (hpm_xpi_flash_write_call (spy target) xpi_cfgs dest src len (s, []))
  refine ⟨sub32 dest xpi_cfgs.flash_base, rest, ?_, sub32_eq_int_emod _ _, rfl, rfl, hwait⟩
  have hl : u32 len = len := Nat.mod_eq_of_lt hlen
  unfold hpm_xpi_flash_write
  rw [hrest]
  simp [hpm_xpi_flash_write_call, spy, hl, HPM_ALGO_STACK_BASE_ADDR, HPM_ALGO_LOAD_BASE_ADDR,
    HPM_ALGO_BUFF_BASE_ADDR, HPM_FLASH_PROGRAM]

/-- A concrete run of C9: programming four bytes at 0x80000100 with the default window. -/
theorem hpm_xpi_flash_write_frame_witness :
    (4 < 2 ^ 32)
      ∧ ∃ a1 rest,
        (hpm_xpi_flash_write (spy (sim (fun _ => true) (fun _ => 0))) xpi_state_default.xpi_cfgs
            0x80000100 [1, 2, 3, 4] 4 (sim_zero, [])).1.2
          = [Event.mem_write 10496 ([1, 2, 3, 4].take 4),
             Event.reg_write 10 xpi_state_default.xpi_cfgs.flash_base, Event.reg_write 11 a1,
             Event.reg_write 12 10496, Event.reg_write 13 4, Event.reg_write 2 10240,
             Event.reg_write 32 (HPM_ALGO_LOAD_BASE_ADDR + 0xC), Event.reg_write 1 16,
             Event.halt_resume false] ++ rest
        ∧ (a1 : Int)
            = (((0x80000100 : Nat) : Int) - (xpi_state_default.xpi_cfgs.flash_base : Int)) % 2 ^ 32
        ∧ HPM_ALGO_BUFF_BASE_ADDR = 10496
        ∧ HPM_ALGO_LOAD_BASE_ADDR + 10240 + 256 = 10496
        ∧ ∀ e ∈ rest, e.isWait = true :=
  ⟨by decide,
   hpm_xpi_flash_write_frame (sim (fun _ => true) (fun _ => 0)) xpi_state_default.xpi_cfgs
     0x80000100 [1, 2, 3, 4] 4 sim_zero (by decide)⟩

/-- C10: `hpm_xpi_flash_prepare` first writes the whole helper image `hpm_flash_algo` at
the load address 0, then writes a0..a4 (10..14) = (`flash_base`, `header`, `opt0`, `opt1`,
`xpi_base`) of the current configuration, pc (32) = load base + 0, ra and sp (2) = 10240,
then resumes the CPU; every later call is a poll, a delay or the read of register 10; and
it returns true exactly when register 10 reads 0 after the loop and the counter stayed
below 500. -/
theorem hpm_xpi_flash_prepare_frame {σ : Type} (target : target_s σ) (xpi_cfgs : hpm_xpi_cfg_t)
    (s : σ) :
    (∃ rest,
      (hpm_xpi_flash_prepare (spy target) xpi_cfgs (s, [])).1.2
          = [Event.mem_write 0 hpm_flash_algo,
             Event.reg_write 10 xpi_cfgs.flash_base, Event.reg_write 11 xpi_cfgs.header,
             Event.reg_write 12 xpi_cfgs.opt0, Event.reg_write 13 xpi_cfgs.opt1,
             Event.reg_write 14 xpi_cfgs.xpi_base,
             Event.reg_write 32 (HPM_ALGO_LOAD_BASE_ADDR + 0), Event.reg_write 1 4,
             Event.reg_write 2 10240, Event.halt_resume false] ++ rest
        ∧ ∀ e ∈ rest, e.isWait = true)
      ∧ ((hpm_xpi_flash_prepare target xpi_cfgs s).2 = true
          ↔ a0_at_exit target 500 (hpm_xpi_flash_prepare_call target xpi_cfgs s) = 0
            ∧ exit_counter target 500 (hpm_xpi_flash_prepare_call target xpi_cfgs s) < 500) := by
  refine ⟨?_, hpm_algo_finish_true_iff target 500 _⟩
  obtain ⟨rest, hrest, hwait⟩ := spy_finish_log target HPM_ALGO_CMD_TIMEOUT
    (hpm_xpi_flash_prepare_call (spy target) xpi_cfgs (s, []))
  refine ⟨rest, ?_, hwait⟩
  unfold hpm_xpi_flash_prepare
  rw [hrest]
  simp [hpm_xpi_flash_prepare_call, spy, HPM_ALGO_STACK_BASE_ADDR, HPM_ALGO_LOAD_BASE_ADDR,
    HPM_FLASH_INIT]

/-! ## Mass erase: outcome -/

/-- On a simulated target a read of register 10 after the loop yields `reg_value 10`. -/
theorem sim_a0_at_exit (halted : Nat → Bool) (reg_value : Nat → Nat) (budget : Nat)
    (w : sim_s) : a0_at_exit (sim halted reg_value) budget w = reg_value 10 := by
  simp [a0_at_exit, sim]

/-- The shared tail on a simulated target reports failure when register 10 reads a
non-zero value. -/
theorem sim_finish_nonzero (halted : Nat → Bool) (reg_value : Nat → Nat) (budget : Nat)
    (w : sim_s) (h : reg_value 10 ≠ 0) :
    (hpm_algo_finish (sim halted reg_value) budget w).2 = false := by
  cases hf : (hpm_algo_finish (sim halted reg_value) budget w).2
  · rfl
  · have := (hpm_algo_finish_true_iff (sim halted reg_value) budget w).mp hf
    rw [sim_a0_at_exit] at this
    exact absurd this.1 h

/-- C11 (what the code does): `hpm_xpi_flash_mass_erase` returns true for every debug
link and every state; in particular it returns true on a simulated target that never
reports halted, where its init and its final erase both time out and return false, and
on one that halts at once with 1 in register 10, where both return false as well. -/
theorem mass_erase_returns_true_on_failure {σ : Type} (target : target_s σ) (st : xpi_state)
    (s : σ) (reg_value : Nat → Nat) (w : sim_s) :
    (hpm_xpi_flash_mass_erase target st s).2 = true
      ∧ ((hpm_xpi_flash_mass_erase (sim (fun _ => false) reg_value) st w).2 = true
        ∧ (hpm_xpi_cmd_init (sim (fun _ => false) reg_value) st.xpi_cfgs
              (hpm_xpi_cmd_load (sim (fun _ => false) reg_value) w).1).2 = false
        ∧ (hpm_xpi_cmd_erase (sim (fun _ => false) reg_value) st.xpi_cfgs st.flash.length
              (hpm_xpi_flash_mass_erase_call (sim (fun _ => false) reg_value) st.xpi_cfgs w)).2
            = false)
      ∧ ((hpm_xpi_flash_mass_erase (sim (fun _ => true) (fun _ => 1)) st w).2 = true
        ∧ (hpm_xpi_cmd_init (sim (fun _ => true) (fun _ => 1)) st.xpi_cfgs
              (hpm_xpi_cmd_load (sim (fun _ => true) (fun _ => 1)) w).1).2 = false
        ∧ (hpm_xpi_cmd_erase (sim (fun _ => true) (fun _ => 1)) st.xpi_cfgs st.flash.length
              (hpm_xpi_flash_mass_erase_call (sim (fun _ => true) (fun _ => 1)) st.xpi_cfgs w)).2
            = false) := by
  refine ⟨rfl, ⟨rfl, ?_, ?_⟩, ⟨rfl, ?_, ?_⟩⟩
  · unfold hpm_xpi_cmd_init
    rw [(sim_finish_never reg_value HPM_ALGO_CMD_TIMEOUT _).1]
  · unfold hpm_xpi_cmd_erase
    rw [(sim_finish_never reg_value HPM_ALGO_ERASE_TIMEOUT _).1]
  · exact sim_finish_nonzero _ _ _ _ (by decide)
  · exact sim_finish_nonzero _ _ _ _ (by decide)

/-! ## Call frames: program counter and return address -/

/-- C12 (what the code does): in init, prepare, get-info, the erase of mass erase and
write, the value written to pc (register 32) is load base + entry offset and the value
written to ra (register 1) is load base + entry offset + 4 for the same offset (0, 0, 0x18,
0x6, 0xC); in `hpm_xpi_flash_erase` pc is load base + 0x6 but ra is load base + 0x18 + 4
= 28, the get-info offset, not 0x6 + 4 = 10. -/
theorem call_frame_pc_ra {σ : Type} (target : target_s σ) (xpi_cfgs : hpm_xpi_cfg_t)
    (flash_length addr dest len : Nat) (src : List Nat) (s : σ) :
    (reg_written (hpm_xpi_cmd_init_call (spy target) xpi_cfgs (s, [])).2 32
          = some (HPM_ALGO_LOAD_BASE_ADDR + 0)
        ∧ reg_written (hpm_xpi_cmd_init_call (spy target) xpi_cfgs (s, [])).2 1
          = some (HPM_ALGO_LOAD_BASE_ADDR + 0 + 4))
      ∧ (reg_written (hpm_xpi_flash_prepare_call (spy target) xpi_cfgs (s, [])).2 32
          = some (HPM_ALGO_LOAD_BASE_ADDR + 0)
        ∧ reg_written (hpm_xpi_flash_prepare_call (spy target) xpi_cfgs (s, [])).2 1
          = some (HPM_ALGO_LOAD_BASE_ADDR + 0 + 4))
      ∧ (reg_written (hpm_xpi_cmd_info_call (spy target) xpi_cfgs (s, [])).2 32
          = some (HPM_ALGO_LOAD_BASE_ADDR + 0x18)
        ∧ reg_written (hpm_xpi_cmd_info_call (spy target) xpi_cfgs (s, [])).2 1
          = some (HPM_ALGO_LOAD_BASE_ADDR + 0x18 + 4))
      ∧ (reg_written (hpm_xpi_cmd_erase_call (spy target) xpi_cfgs flash_length (s, [])).2 32
          = some (HPM_ALGO_LOAD_BASE_ADDR + 0x6)
        ∧ reg_written (hpm_xpi_cmd_erase_call (spy target) xpi_cfgs flash_length (s, [])).2 1
          = some (HPM_ALGO_LOAD_BASE_ADDR + 0x6 + 4))
      ∧ (reg_written (hpm_xpi_flash_write_call (spy target) xpi_cfgs dest src len (s, [])).2 32
          = some (HPM_ALGO_LOAD_BASE_ADDR + 0xC)
        ∧ reg_written (hpm_xpi_flash_write_call (spy target) xpi_cfgs dest src len (s, [])).2 1
          = some (HPM_ALGO_LOAD_BASE_ADDR + 0xC + 4))
      ∧ (reg_written (hpm_xpi_flash_erase_call (spy target) xpi_cfgs addr len (s, [])).2 32
          = some (HPM_ALGO_LOAD_BASE_ADDR + 0x6)
        ∧ reg_written (hpm_xpi_flash_erase_call (spy target) xpi_cfgs addr len (s, [])).2 1
          = some (HPM_ALGO_LOAD_BASE_ADDR + 0x18 + 4)
        ∧ HPM_ALGO_LOAD_BASE_ADDR + 0x18 + 4 ≠ HPM_ALGO_LOAD_BASE_ADDR + 0x6 + 4) := by
  refine ⟨⟨?_, ?_⟩, ⟨?_, ?_⟩, ⟨?_, ?_⟩, ⟨?_, ?_⟩, ⟨?_, ?_⟩, ⟨?_, ?_, by decide⟩⟩ <;>
    simp [reg_written, hpm_xpi_cmd_init_call, hpm_xpi_flash_prepare_call, hpm_xpi_cmd_info_call,
      hpm_xpi_cmd_erase_call, hpm_xpi_flash_write_call, hpm_xpi_flash_erase_call, spy,
      List.foldl_append, HPM_ALGO_LOAD_BASE_ADDR, HPM_FLASH_INIT, HPM_FLASH_ERASE,
      HPM_FLASH_PROGRAM, HPM_FLASH_GET_INFO, HPM_ALGO_STACK_BASE_ADDR]

/-! ## Chip identifier: memory reads -/

/-- Under the recorder a 32-bit read appends one memory read to the log. -/
theorem spy_read_u32_log {σ : Type} (target : target_s σ) (w : σ × List Event) (addr : Nat) :
    (hpm_read_u32_via_sysbus (spy target) w addr).1.2 = w.2 ++ [Event.mem_read addr 4] := by
  simp [hpm_read_u32_via_sysbus, spy]

/-- The legacy probe loop makes at most one memory read per address it is given, and
removes none from the log. -/
theorem spy_soc_set_loop_reads {σ : Type} (target : target_s σ) (tag dflt : Nat) :
    ∀ (addrs : List Nat) (w : σ × List Event),
      memReadCount w.2 ≤ memReadCount (soc_set_loop (spy target) tag dflt w addrs).1.2
        ∧ memReadCount (soc_set_loop (spy target) tag dflt w addrs).1.2
            ≤ memReadCount w.2 + addrs.length := by
  intro addrs
  induction addrs with
  | nil => intro w; simp [soc_set_loop]
  | cons a rest ih =>
    intro w
    have hlog := spy_read_u32_log target w a
    have hcount : memReadCount (hpm_read_u32_via_sysbus (spy target) w a).1.2
        = memReadCount w.2 + 1 := by
      rw [hlog]
      simp [memReadCount, Event.isMemRead]
    unfold soc_set_loop
    simp only []
    split
    · rw [hcount]
      simp only [List.length_cons]
      omega
    · have := ih (hpm_read_u32_via_sysbus (spy target) w a).1
      rw [hcount] at this
      simp only [List.length_cons]
      omega

/-- C13 (refuted as stated): on a target whose memory is all zero `hpm_get_soc_magic`
makes eight memory reads, more than two. -/
theorem hpm_get_soc_magic_more_than_two_reads :
    ¬ memReadCount
        (hpm_get_soc_magic (spy (sim (fun _ => false) (fun _ => 0))) (sim_zero, [])).1.2 ≤ 2 := by
  decide

/-- On the recorded simulated target a 32-bit read appends one memory read to the log,
leaves the world as it is and yields the word that memory holds at the address. -/
theorem spy_sim_read_u32 (halted : Nat → Bool) (reg_value : Nat → Nat) (w : sim_s)
    (l : List Event) (addr : Nat) :
    hpm_read_u32_via_sysbus (spy (sim halted reg_value)) (w, l) addr
      = ((w, l ++ [Event.mem_read addr 4]), word_at w.mem addr) := by
  simp [hpm_read_u32_via_sysbus, spy, sim, word_at, List.range, List.range.loop]

/-- The legacy probe loop on the recorded simulated target reads the listed addresses in
order up to and including the first whose word is the tag, and all of them when none
is. -/
theorem spy_sim_soc_set_loop_reads (halted : Nat → Bool) (reg_value : Nat → Nat)
    (tag dflt : Nat) (w : sim_s) :
    ∀ (addrs : List Nat) (l : List Event),
      memReadCount (soc_set_loop (spy (sim halted reg_value)) tag dflt (w, l) addrs).1.2
        = memReadCount l
          + min (addrs.findIdx (fun a => decide (word_at w.mem a = tag)) + 1) addrs.length := by
  intro addrs
  induction addrs with
  | nil => intro l; simp [soc_set_loop]
  | cons a rest ih =>
    intro l
    have hcount : memReadCount (l ++ [Event.mem_read a 4]) = memReadCount l + 1 := by
      simp [memReadCount, Event.isMemRead]
    unfold soc_set_loop
    simp only [spy_sim_read_u32]
    by_cases h : word_at w.mem a = tag
    · simp only [h, if_true, hcount]
      have hd : decide (word_at w.mem a = tag) = true := by simp [h]
      simp only [List.findIdx_cons, hd, cond_true, List.length_cons]
      omega
    · simp only [h, if_false]
      rw [ih, hcount]
      simp only [List.findIdx_cons, h, decide_False, cond_false, List.length_cons]
      omega

/-- When no listed address holds the tag, the search index is the length of the list. -/
theorem findIdx_of_no_tag (mem : Nat → Nat) (tag : Nat) (addrs : List Nat)
    (h : ∀ a ∈ addrs, word_at mem a ≠ tag) :
    addrs.findIdx (fun a => decide (word_at mem a = tag)) = addrs.length := by
  induction addrs with
  | nil => rfl
  | cons a rest ih =>
    have ha : word_at mem a ≠ tag := h a (List.mem_cons_self _ _)
    have hr := ih (fun x hx => h x (List.mem_cons_of_mem _ hx))
    simp [List.findIdx_cons, ha, hr]

/-- C13 (amended): `hpm_get_soc_magic` makes at least one and at most eight memory reads on
every debug link: one of the ROM-tag word, then at most one for each of the seven
addresses of `hpm_soc_set`.  For every memory content of the simulated target the number
is exact: one read when the ROM-tag word is non-zero; otherwise one plus the reads of the
probe addresses up to and including the first that holds the tag; and exactly eight for
every memory whose ROM-tag word is zero and in which no probe address holds the tag. -/
theorem hpm_get_soc_magic_read_count {σ : Type} (target : target_s σ) (s : σ)
    (halted : Nat → Bool) (reg_value : Nat → Nat) (w : sim_s) :
    (1 ≤ memReadCount (hpm_get_soc_magic (spy target) (s, [])).1.2
        ∧ memReadCount (hpm_get_soc_magic (spy target) (s, [])).1.2 ≤ 1 + hpm_soc_set.length
        ∧ 1 + hpm_soc_set.length = 8)
      ∧ memReadCount (hpm_get_soc_magic (spy (sim halted reg_value)) (w, [])).1.2
          = (if word_at w.mem 0x2001FF30 ≠ 0 then 1
             else 1 + min (hpm_soc_set.findIdx
                            (fun a => decide (word_at w.mem a = 0x022010bf)) + 1) 7)
      ∧ (word_at w.mem 0x2001FF30 ≠ 0 →
          memReadCount (hpm_get_soc_magic (spy (sim halted reg_value)) (w, [])).1.2 = 1)
      ∧ (word_at w.mem 0x2001FF30 = 0 →
          (∀ a ∈ hpm_soc_set, word_at w.mem a ≠ 0x022010bf) →
          memReadCount (hpm_get_soc_magic (spy (sim halted reg_value)) (w, [])).1.2 = 8) := by
  have hlog := spy_read_u32_log target (s, []) (u32 (ROM_API_TABLE_ROOT + 0x30))
  have hcount : memReadCount
      (hpm_read_u32_via_sysbus (spy target) (s, []) (u32 (ROM_API_TABLE_ROOT + 0x30))).1.2 = 1 := by
    rw [hlog]
    simp [memReadCount, Event.isMemRead]
  have hroot : u32 (ROM_API_TABLE_ROOT + 0x30) = 0x2001FF30 := by decide
  have hlen : hpm_soc_set.length = 7 := rfl
  have hexact : memReadCount (hpm_get_soc_magic (spy (sim halted reg_value)) (w, [])).1.2
      = (if word_at w.mem 0x2001FF30 ≠ 0 then 1
         else 1 + min (hpm_soc_set.findIdx
                        (fun a => decide (word_at w.mem a = 0x022010bf)) + 1) 7) := by
    unfold hpm_get_soc_magic
    simp only [hroot, spy_sim_read_u32]
    by_cases h : word_at w.mem 0x2001FF30 = 0
    · simp only [h, ne_eq, not_true_eq_false, if_false]
      rw [spy_sim_soc_set_loop_reads, hlen]
      simp [memReadCount, Event.isMemRead]
    · simp [h, memReadCount, Event.isMemRead]
  refine ⟨⟨?_, ?_, by decide⟩, hexact, ?_, ?_⟩
  · unfold hpm_get_soc_magic
    simp only []
    split
    · rw [hcount]
    · have := (spy_soc_set_loop_reads target 0x022010bf 0xffffffff hpm_soc_set
        (hpm_read_u32_via_sysbus (spy target) (s, []) (u32 (ROM_API_TABLE_ROOT + 0x30))).1).1
      rw [hcount] at this
      exact this
  · unfold hpm_get_soc_magic
    simp only []
    split
    · rw [hcount]; omega
    · have := (spy_soc_set_loop_reads target 0x022010bf 0xffffffff hpm_soc_set
        (hpm_read_u32_via_sysbus (spy target) (s, []) (u32 (ROM_API_TABLE_ROOT + 0x30))).1).2
      rw [hcount] at this
      exact this
  · intro h
    rw [hexact, if_pos h]
  · intro h0 hno
    rw [hexact, if_neg (by simp [h0]), findIdx_of_no_tag w.mem 0x022010bf hpm_soc_set hno, hlen]
    decide

/-! ## Probe and configuration -/

/-- C14 (refuted as stated): on an HPM5300, identified by its ROM-tag word, the probe
establishes header 0xfcf90002, opt0 6 and opt1 0x1000, and an accepted configuration
command with three arguments replaces all three by 0xfcf90001, 7 and 0. -/
theorem config_three_args_drops_hpm5300_defaults :
    (hpm_get_soc_magic (sim (fun _ => true) (fun _ => 0)) sim_hpm5300).2 = HPM5300_A0_SILICON
      ∧ (hpm_xpi_probe (sim (fun _ => true) (fun _ => 0)) sim_hpm5300).1.2.xpi_cfgs.header
          = 0xfcf90002
      ∧ (hpm_xpi_probe (sim (fun _ => true) (fun _ => 0)) sim_hpm5300).1.2.xpi_cfgs.opt0 = 6
      ∧ (hpm_xpi_probe (sim (fun _ => true) (fun _ => 0)) sim_hpm5300).1.2.xpi_cfgs.opt1 = 0x1000
      ∧ (hpm_xpi_cmd_config (sim (fun _ => true) (fun _ => 0)) strtoul_dec 4 argv_example
            (hpm_xpi_probe (sim (fun _ => true) (fun _ => 0)) sim_hpm5300).1.2.state
            sim_hpm5300).2 = true
      ∧ (hpm_xpi_cmd_config (sim (fun _ => true) (fun _ => 0)) strtoul_dec 4 argv_example
            (hpm_xpi_probe (sim (fun _ => true) (fun _ => 0)) sim_hpm5300).1.2.state
            sim_hpm5300).1.2.xpi_cfgs.header
          ≠ (hpm_xpi_probe (sim (fun _ => true) (fun _ => 0)) sim_hpm5300).1.2.xpi_cfgs.header
      ∧ (hpm_xpi_cmd_config (sim (fun _ => true) (fun _ => 0)) strtoul_dec 4 argv_example
            (hpm_xpi_probe (sim (fun _ => true) (fun _ => 0)) sim_hpm5300).1.2.state
            sim_hpm5300).1.2.xpi_cfgs.opt0
          ≠ (hpm_xpi_probe (sim (fun _ => true) (fun _ => 0)) sim_hpm5300).1.2.xpi_cfgs.opt0
      ∧ (hpm_xpi_cmd_config (sim (fun _ => true) (fun _ => 0)) strtoul_dec 4 argv_example
            (hpm_xpi_probe (sim (fun _ => true) (fun _ => 0)) sim_hpm5300).1.2.state
            sim_hpm5300).1.2.xpi_cfgs.opt1
          ≠ (hpm_xpi_probe (sim (fun _ => true) (fun _ => 0)) sim_hpm5300).1.2.xpi_cfgs.opt1 := by
  refine ⟨by decide, by decide, by decide, by decide, by decide, by decide, by decide, by decide⟩

/-- C14 (amended): after `hpm_xpi_probe`, a configuration command with exactly three
arguments returns true and sets header, opt0 and opt1 to the generic defaults 0xfcf90001,
7 and 0; these are the values the probe established unless the chip is an HPM5300 or an
HPM6P00, whose probe values are header 0xfcf90002, opt1 0x1000 and opt0 6 resp. 5. -/
theorem config_three_args_generic_defaults {σ : Type} (target : target_s σ)
    (strtoul : String → Nat) (argv : Nat → String) (s s2 : σ) :
    ((hpm_xpi_cmd_config target strtoul 4 argv (hpm_xpi_probe target s).1.2.state s2).2 = true
        ∧ (hpm_xpi_cmd_config target strtoul 4 argv
            (hpm_xpi_probe target s).1.2.state s2).1.2.xpi_cfgs.header = 0xfcf90001
        ∧ (hpm_xpi_cmd_config target strtoul 4 argv
            (hpm_xpi_probe target s).1.2.state s2).1.2.xpi_cfgs.opt0 = 7
        ∧ (hpm_xpi_cmd_config target strtoul 4 argv
            (hpm_xpi_probe target s).1.2.state s2).1.2.xpi_cfgs.opt1 = 0)
      ∧ ((hpm_get_soc_magic target s).2 = HPM5300_A0_SILICON
          ∨ (hpm_get_soc_magic target s).2 = HPM6P00_A0_SILICON
          ∨ ((hpm_xpi_probe target s).1.2.xpi_cfgs.header = 0xfcf90001
              ∧ (hpm_xpi_probe target s).1.2.xpi_cfgs.opt0 = 7
              ∧ (hpm_xpi_probe target s).1.2.xpi_cfgs.opt1 = 0))
      ∧ ((hpm_xpi_probe_magic HPM5300_A0_SILICON).xpi_cfgs.header = 0xfcf90002
          ∧ (hpm_xpi_probe_magic HPM5300_A0_SILICON).xpi_cfgs.opt0 = 6
          ∧ (hpm_xpi_probe_magic HPM5300_A0_SILICON).xpi_cfgs.opt1 = 0x1000)
      ∧ ((hpm_xpi_probe_magic HPM6P00_A0_SILICON).xpi_cfgs.header = 0xfcf90002
          ∧ (hpm_xpi_probe_magic HPM6P00_A0_SILICON).xpi_cfgs.opt0 = 5
          ∧ (hpm_xpi_probe_magic HPM6P00_A0_SILICON).xpi_cfgs.opt1 = 0x1000) := by
  refine ⟨?_, ?_, by decide, by decide⟩
  · simp [hpm_xpi_cmd_config, HPM_XPI_HDR_DEFAULT, HPM_XPI_OPT0_DEFAULT, HPM_XPI_OPT1_DEFAULT]
  · by_cases h5 : (hpm_get_soc_magic target s).2 = HPM5300_A0_SILICON
    · exact Or.inl h5
    · by_cases h6 : (hpm_get_soc_magic target s).2 = HPM6P00_A0_SILICON
      · exact Or.inr (Or.inl h6)
      · right; right
        simp only [hpm_xpi_probe, hpm_xpi_probe_magic, probe_switch, h5, h6, if_false]
        split_ifs <;> exact ⟨by decide, by decide, by decide⟩

/-- The configuration that the probe establishes satisfies the invariant, whatever the
magic. -/
theorem probe_magic_inv (soc_magic : Nat) :
    xpi_cfg_inv (hpm_xpi_probe_magic soc_magic).xpi_cfgs
      ∧ (hpm_xpi_probe_magic soc_magic).xpi_cfgs.sector_size = 0x1000 := by
  simp only [hpm_xpi_probe_magic, probe_switch, xpi_cfg_inv]
  split_ifs <;>
    exact ⟨⟨by decide, by decide, ⟨12, by decide⟩, by decide⟩, by decide⟩

/-- C15: for every magic, known or not, the configuration that `hpm_xpi_probe` produces
has `[flash_base, flash_base + flash_size)` inside the flash window
`[0x80000000, 0x80000000 + 0x2000000)` and a `sector_size` of 0x1000, a power of two that
divides `flash_size`; so it does for every debug link the probe runs on. -/
theorem hpm_xpi_probe_inv {σ : Type} (target : target_s σ) (s : σ) (soc_magic : Nat) :
    (xpi_cfg_inv (hpm_xpi_probe_magic soc_magic).xpi_cfgs
        ∧ (hpm_xpi_probe_magic soc_magic).xpi_cfgs.sector_size = 0x1000)
      ∧ (xpi_cfg_inv (hpm_xpi_probe target s).1.2.xpi_cfgs
        ∧ (hpm_xpi_probe target s).1.2.xpi_cfgs.sector_size = 0x1000) :=
  ⟨probe_magic_inv soc_magic, probe_magic_inv (hpm_get_soc_magic target s).2⟩

/-- An accepted configuration command stores the parsed base and size as they are and
leaves `sector_size` alone. -/
theorem config_accepted_fields {σ : Type} (target : target_s σ) (strtoul : String → Nat)
    (argc : Int) (argv : Nat → String) (st : xpi_state) (s : σ)
    (hacc : (hpm_xpi_cmd_config target strtoul argc argv st s).2 = true) :
    (hpm_xpi_cmd_config target strtoul argc argv st s).1.2.xpi_cfgs.flash_base
        = u32 (strtoul (argv 1))
      ∧ (hpm_xpi_cmd_config target strtoul argc argv st s).1.2.xpi_cfgs.flash_size
        = u32 (strtoul (argv 2))
      ∧ (hpm_xpi_cmd_config target strtoul argc argv st s).1.2.xpi_cfgs.sector_size
        = st.xpi_cfgs.sector_size := by
  unfold hpm_xpi_cmd_config at hacc ⊢
  by_cases h : argc < 4 ∨ argc > 6
  · simp [h] at hacc
  · simp only [h, if_false] at hacc ⊢
    by_cases h4 : argc = 4
    · simp [h4]
    · by_cases h5 : argc = 5
      · simp [h5]
      · by_cases h6 : argc = 6
        · simp [h6]
        · simp [h4, h5, h6] at hacc

/-- C16 (refuted as stated): from the default configuration, which satisfies the
invariant, the accepted command `xpi_cfg 0 16777216 4076863488` leaves a configuration
whose flash base 0 lies below the flash window. -/
theorem config_breaks_invariant :
    xpi_cfg_inv xpi_state_default.xpi_cfgs
      ∧ (hpm_xpi_cmd_config (sim (fun _ => true) (fun _ => 0)) strtoul_dec 4 argv_outside
            xpi_state_default sim_zero).2 = true
      ∧ ¬ xpi_cfg_inv (hpm_xpi_cmd_config (sim (fun _ => true) (fun _ => 0)) strtoul_dec 4
            argv_outside xpi_state_default sim_zero).1.2.xpi_cfgs := by
  refine ⟨⟨by decide, by decide, ⟨12, by decide⟩, by decide⟩, by decide, ?_⟩
  intro h
  exact absurd h.1 (by decide)

/-- C16 (amended): the configuration command stores the parsed flash base and size
unchecked and leaves `sector_size` unchanged; for a prior configuration that satisfies the
invariant and an accepted argument list, the resulting configuration satisfies the
invariant if and only if the parsed base and size describe a region inside the flash
window `[0x80000000, 0x82000000)` and the sector size divides the parsed size. -/
theorem config_inv_iff_parsed_in_window {σ : Type} (target : target_s σ)
    (strtoul : String → Nat) (argc : Int) (argv : Nat → String) (st : xpi_state) (s : σ)
    (hinv : xpi_cfg_inv st.xpi_cfgs)
    (hacc : (hpm_xpi_cmd_config target strtoul argc argv st s).2 = true) :
    (hpm_xpi_cmd_config target strtoul argc argv st s).1.2.xpi_cfgs.sector_size
        = st.xpi_cfgs.sector_size
      ∧ (xpi_cfg_inv (hpm_xpi_cmd_config target strtoul argc argv st s).1.2.xpi_cfgs
          ↔ 0x80000000 ≤ u32 (strtoul (argv 1))
            ∧ u32 (strtoul (argv 1)) + u32 (strtoul (argv 2)) ≤ 0x82000000
            ∧ st.xpi_cfgs.sector_size ∣ u32 (strtoul (argv 2))) := by
  obtain ⟨hb, hs, hsec⟩ := config_accepted_fields target strtoul argc argv st s hacc
  refine ⟨hsec, ?_⟩
  unfold xpi_cfg_inv
  rw [hb, hs, hsec]
  have hw : HPM_XPI_FLASH_BASE + HPM_XPI_FLASH_SIZE = 0x82000000 := by decide
  have hbase : HPM_XPI_FLASH_BASE = 0x80000000 := rfl
  rw [hw, hbase]
  constructor
  · rintro ⟨h1, h2, _, h4⟩
    exact ⟨h1, h2, h4⟩
  · rintro ⟨h1, h2, h4⟩
    exact ⟨h1, h2, hinv.2.2.1, h4⟩

/-- A concrete run of the amended C16: the accepted command
`xpi_cfg 2415919104 16777216 4076863488 5 4096` on the default configuration. -/
theorem config_inv_iff_parsed_in_window_witness :
    (xpi_cfg_inv xpi_state_default.xpi_cfgs
        ∧ (hpm_xpi_cmd_config (sim (fun _ => true) (fun _ => 0)) strtoul_dec 6 argv_example
              xpi_state_default sim_zero).2 = true)
      ∧ (hpm_xpi_cmd_config (sim (fun _ => true) (fun _ => 0)) strtoul_dec 6 argv_example
            xpi_state_default sim_zero).1.2.xpi_cfgs.sector_size
          = xpi_state_default.xpi_cfgs.sector_size
      ∧ (xpi_cfg_inv (hpm_xpi_cmd_config (sim (fun _ => true) (fun _ => 0)) strtoul_dec 6
            argv_example xpi_state_default sim_zero).1.2.xpi_cfgs
          ↔ 0x80000000 ≤ u32 (strtoul_dec (argv_example 1))
            ∧ u32 (strtoul_dec (argv_example 1)) + u32 (strtoul_dec (argv_example 2))
                ≤ 0x82000000
            ∧ xpi_state_default.xpi_cfgs.sector_size ∣ u32 (strtoul_dec (argv_example 2))) :=
  ⟨⟨⟨by decide, by decide, ⟨12, by decide⟩, by decide⟩, by decide⟩,
   config_inv_iff_parsed_in_window (sim (fun _ => true) (fun _ => 0)) strtoul_dec 6
     argv_example xpi_state_default sim_zero
     ⟨by decide, by decide, ⟨12, by decide⟩, by decide⟩ (by decide)⟩

/-- C17: when the magic read from the target is in no row of `hpm_soc_maps`, `hpm_xpi_probe`
returns true, leaves the generic defaults header 0xfcf90001, xpi_base 0xF3000000,
flash_base 0x80000000, flash_size 0x2000000, sector_size 0x1000, opt0 7, opt1 0, and
registers a flash region with that base and size and with block and write size 0x1000;
the driver is named "HPMicro" and no RAM region is added. -/
theorem hpm_xpi_probe_unknown {σ : Type} (target : target_s σ) (s : σ)
    (hunknown : ∀ m ∈ hpm_soc_maps, m.magic ≠ (hpm_get_soc_magic target s).2) :
    (hpm_xpi_probe target s).2 = true
      ∧ (hpm_xpi_probe target s).1.2.xpi_cfgs
          = { header := 0xfcf90001, xpi_base := 0xF3000000, flash_base := 0x80000000,
              flash_size := 0x2000000, sector_size := 0x1000, opt0 := 7, opt1 := 0 }
      ∧ (hpm_xpi_probe target s).1.2.flash
          = { start := 0x80000000, length := 0x2000000, blocksize := 0x1000,
              writesize := 0x1000, erased := 0xff }
      ∧ (hpm_xpi_probe target s).1.2.driver = "HPMicro"
      ∧ (hpm_xpi_probe target s).1.2.ram = [] := by
  have h1 := hunknown ⟨HPM6700_A0_SILICON, "hpm6700"⟩ (by simp [hpm_soc_maps])
  have h2 := hunknown ⟨HPM6700_A1_SILICON, "hpm6700"⟩ (by simp [hpm_soc_maps])
  have h3 := hunknown ⟨HPM6300_A0_SILICON, "hpm6300"⟩ (by simp [hpm_soc_maps])
  have h4 := hunknown ⟨HPM6300_A1_SILICON, "hpm6300"⟩ (by simp [hpm_soc_maps])
  have h5 := hunknown ⟨HPM6200_A0_SILICON, "hpm6200"⟩ (by simp [hpm_soc_maps])
  have h6 := hunknown ⟨HPM6200_A1_SILICON, "hpm6200"⟩ (by simp [hpm_soc_maps])
  have h7 := hunknown ⟨HPM6200_A2_SILICON, "hpm6200"⟩ (by simp [hpm_soc_maps])
  have h8 := hunknown ⟨HPM5300_A0_SILICON, "hpm5300"⟩ (by simp [hpm_soc_maps])
  have h9 := hunknown ⟨HPM6800_A0_SILICON, "hpm6800"⟩ (by simp [hpm_soc_maps])
  have h10 := hunknown ⟨HPM6E00_A0_SILICON, "hpm6e00"⟩ (by simp [hpm_soc_maps])
  have h11 := hunknown ⟨HPM6P00_A0_SILICON, "hpm6p00"⟩ (by simp [hpm_soc_maps])
  simp only [ne_eq] at h1 h2 h3 h4 h5 h6 h7 h8 h9 h10 h11
  have e1 := Ne.symm h1
  have e2 := Ne.symm h2
  have e3 := Ne.symm h3
  have e4 := Ne.symm h4
  have e5 := Ne.symm h5
  have e6 := Ne.symm h6
  have e7 := Ne.symm h7
  have e8 := Ne.symm h8
  have e9 := Ne.symm h9
  have e10 := Ne.symm h10
  have e11 := Ne.symm h11
  have hname : hpm_get_series_name (hpm_get_soc_magic target s).2 = "Unknown" := by
    simp [hpm_get_series_name, hpm_soc_maps, series_name_loop, e1, e2, e3, e4, e5, e6, e7, e8,
      e9, e10, e11]
  have hsw : probe_switch (hpm_get_soc_magic target s).2
      { header := HPM_XPI_HDR_DEFAULT, xpi_base := HPM_XPI_BASE_DEFAULT,
        flash_base := HPM_XPI_FLASH_BASE, flash_size := HPM_XPI_FLASH_SIZE,
        opt0 := HPM_XPI_OPT0_DEFAULT, opt1 := HPM_XPI_OPT1_DEFAULT,
        sector_size := HPM_XPI_PAGE_SIZE }
      = ({ header := HPM_XPI_HDR_DEFAULT, xpi_base := HPM_XPI_BASE_DEFAULT,
           flash_base := HPM_XPI_FLASH_BASE, flash_size := HPM_XPI_FLASH_SIZE,
           opt0 := HPM_XPI_OPT0_DEFAULT, opt1 := HPM_XPI_OPT1_DEFAULT,
           sector_size := HPM_XPI_PAGE_SIZE }, []) := by
    simp [probe_switch, e1, e2, e3, e4, e5, e6, e7, e8, e9, e10, e11]
  refine ⟨rfl, ?_, ?_, ?_, ?_⟩
  · simp only [hpm_xpi_probe, hpm_xpi_probe_magic, hsw]
    rfl
  · simp only [hpm_xpi_probe, hpm_xpi_probe_magic, hsw]
    rfl
  · simp only [hpm_xpi_probe, hpm_xpi_probe_magic, hname]
    rfl
  · simp only [hpm_xpi_probe, hpm_xpi_probe_magic, hsw]

/-- A concrete run of C17: a target whose memory is all zero yields the magic 0xffffffff,
which is in no row. -/
theorem hpm_xpi_probe_unknown_witness :
    (∀ m ∈ hpm_soc_maps,
        m.magic ≠ (hpm_get_soc_magic (sim (fun _ => true) (fun _ => 0)) sim_zero).2)
      ∧ (hpm_xpi_probe (sim (fun _ => true) (fun _ => 0)) sim_zero).2 = true
      ∧ (hpm_xpi_probe (sim (fun _ => true) (fun _ => 0)) sim_zero).1.2.xpi_cfgs
          = { header := 0xfcf90001, xpi_base := 0xF3000000, flash_base := 0x80000000,
              flash_size := 0x2000000, sector_size := 0x1000, opt0 := 7, opt1 := 0 }
      ∧ (hpm_xpi_probe (sim (fun _ => true) (fun _ => 0)) sim_zero).1.2.flash
          = { start := 0x80000000, length := 0x2000000, blocksize := 0x1000,
              writesize := 0x1000, erased := 0xff }
      ∧ (hpm_xpi_probe (sim (fun _ => true) (fun _ => 0)) sim_zero).1.2.driver = "HPMicro"
      ∧ (hpm_xpi_probe (sim (fun _ => true) (fun _ => 0)) sim_zero).1.2.ram = [] :=
  ⟨by decide, hpm_xpi_probe_unknown (sim (fun _ => true) (fun _ => 0)) sim_zero (by decide)⟩

/-! ## Mass erase: the calls made -/

/-- Under the recorder the reload appends the one memory write of the image. -/
theorem spy_load_log {σ : Type} (target : target_s σ) (w : σ × List Event) :
    (hpm_xpi_cmd_load (spy target) w).1.2 = w.2 ++ [Event.mem_write 0 hpm_flash_algo] := by
  simp [hpm_xpi_cmd_load, spy, HPM_ALGO_LOAD_BASE_ADDR]

/-- Under the recorder an init run appends its frame and then only waits. -/
theorem spy_init_log {σ : Type} (target : target_s σ) (xpi_cfgs : hpm_xpi_cfg_t)
    (w : σ × List Event) :
    ∃ rest, (hpm_xpi_cmd_init (spy target) xpi_cfgs w).1.2 = w.2 ++ init_frame xpi_cfgs ++ rest
      ∧ ∀ e ∈ rest, e.isWait = true := by
  obtain ⟨rest, hrest, hwait⟩ := spy_finish_log target HPM_ALGO_CMD_TIMEOUT
    (hpm_xpi_cmd_init_call (spy target) xpi_cfgs w)
  refine ⟨rest, ?_, hwait⟩
  unfold hpm_xpi_cmd_init
  rw [hrest]
  simp [hpm_xpi_cmd_init_call, spy, init_frame, HPM_ALGO_STACK_BASE_ADDR,
    HPM_ALGO_LOAD_BASE_ADDR, HPM_FLASH_INIT]

/-- Under the recorder the erase of mass erase appends its frame and then only waits. -/
theorem spy_cmd_erase_log {σ : Type} (target : target_s σ) (xpi_cfgs : hpm_xpi_cfg_t)
    (flash_length : Nat) (w : σ × List Event) :
    ∃ rest, (hpm_xpi_cmd_erase (spy target) xpi_cfgs flash_length w).1.2
        = w.2 ++ erase_frame xpi_cfgs (u32 flash_length) ++ rest
      ∧ ∀ e ∈ rest, e.isWait = true := by
  obtain ⟨rest, hrest, hwait⟩ := spy_finish_log target HPM_ALGO_ERASE_TIMEOUT
    (hpm_xpi_cmd_erase_call (spy target) xpi_cfgs flash_length w)
  refine ⟨rest, ?_, hwait⟩
  unfold hpm_xpi_cmd_erase
  rw [hrest]
  simp [hpm_xpi_cmd_erase_call, spy, erase_frame, HPM_ALGO_STACK_BASE_ADDR,
    HPM_ALGO_LOAD_BASE_ADDR, HPM_FLASH_ERASE]

/-- A wait changes nothing on the target. -/
theorem isPassive_of_isWait (e : Event) (h : e.isWait = true) : e.isPassive = true := by
  cases e <;> simp_all [Event.isWait, Event.isPassive]

/-- Under the recorder a get-info run appends the six lines, a reload, an init run, its
own frame, and then only calls that change nothing on the target. -/
theorem spy_info_log {σ : Type} (target : target_s σ) (xpi_cfgs : hpm_xpi_cfg_t)
    (w : σ × List Event) :
    ∃ r2 r3, (hpm_xpi_cmd_info (spy target) xpi_cfgs w).1.2
        = w.2 ++ info_prints xpi_cfgs ++ [Event.mem_write 0 hpm_flash_algo]
            ++ init_frame xpi_cfgs ++ r2 ++ info_frame xpi_cfgs ++ r3
      ∧ (∀ e ∈ r2, e.isWait = true) ∧ ∀ e ∈ r3, e.isPassive = true := by
  obtain ⟨r2, hr2, hw2⟩ := spy_init_log target xpi_cfgs
    (hpm_xpi_cmd_load (spy target)
      ((spy target).tc_printf ((spy target).tc_printf ((spy target).tc_printf
        ((spy target).tc_printf ((spy target).tc_printf ((spy target).tc_printf w
          "  cfg_xpi_header: 0x%x \n" [xpi_cfgs.header])
          "  cfg_flash_base: 0x%x \n" [xpi_cfgs.flash_base])
          "  cfg_flash_size: 0x%x \n" [xpi_cfgs.flash_size])
          "    cfg_xpi_base: 0x%x \n" [xpi_cfgs.xpi_base])
          "        cfg_opt0: 0x%x \n" [xpi_cfgs.opt0])
          "        cfg_opt1: 0x%x \n" [xpi_cfgs.opt1])).1
  have hcall : (hpm_xpi_cmd_info_call (spy target) xpi_cfgs w).2
      = w.2 ++ info_prints xpi_cfgs ++ [Event.mem_write 0 hpm_flash_algo]
          ++ init_frame xpi_cfgs ++ r2 ++ info_frame xpi_cfgs := by
    unfold hpm_xpi_cmd_info_call
    simp only []
    have hfr : ∀ x : σ × List Event,
        ((spy target).halt_resume ((spy target).reg_write ((spy target).reg_write
          ((spy target).reg_write ((spy target).reg_write ((spy target).reg_write x 2
            HPM_ALGO_STACK_BASE_ADDR) 10 xpi_cfgs.flash_base) 11 HPM_ALGO_BUFF_BASE_ADDR) 32
            (HPM_ALGO_LOAD_BASE_ADDR + HPM_FLASH_GET_INFO)) 1
            (HPM_ALGO_LOAD_BASE_ADDR + HPM_FLASH_GET_INFO + 4)) false).2
          = x.2 ++ info_frame xpi_cfgs := by
      intro x
      simp [spy, info_frame, HPM_ALGO_STACK_BASE_ADDR, HPM_ALGO_BUFF_BASE_ADDR,
        HPM_ALGO_LOAD_BASE_ADDR, HPM_FLASH_GET_INFO]
    rw [hfr, hr2, spy_load_log]
    simp [spy, info_prints, List.append_assoc]
  obtain ⟨rp, hrp, hwp⟩ := spy_poll_log target HPM_ALGO_CMD_TIMEOUT (HPM_ALGO_CMD_TIMEOUT - 0)
    (hpm_xpi_cmd_info_call (spy target) xpi_cfgs w) 0 rfl
  have hpas : ∀ e ∈ rp ++ [Event.reg_read 10], e.isPassive = true := by
    intro e he
    rcases List.mem_append.mp he with he | he
    · exact isPassive_of_isWait e (hwp e he)
    · simp at he
      subst he
      rfl
  have e_rr : ∀ (x : σ × List Event) (r : Nat),
      ((spy target).reg_read x r).1.2 = x.2 ++ [Event.reg_read r] := fun _ _ => rfl
  have e_mr : ∀ (x : σ × List Event) (a n : Nat),
      ((spy target).mem_read x a n).1.2 = x.2 ++ [Event.mem_read a n] := fun _ _ _ => rfl
  have e_pf : ∀ (x : σ × List Event) (f : String) (a : List Nat),
      ((spy target).tc_printf x f a).2 = x.2 ++ [Event.tc_printf f a] := fun _ _ _ => rfl
  unfold hpm_xpi_cmd_info
  simp only []
  split
  · refine ⟨r2, rp ++ [Event.reg_read 10], ?_, hw2, hpas⟩
    simp only [e_rr, hrp, hcall, List.append_assoc]
  · refine ⟨r2, rp ++ [Event.reg_read 10] ++
      [Event.mem_read HPM_ALGO_BUFF_BASE_ADDR 8,
       Event.tc_printf " real total size: 0x%x \n"
        [le32 ((spy target).mem_read ((spy target).reg_read
          (hpm_algo_poll (spy target) HPM_ALGO_CMD_TIMEOUT
            (hpm_xpi_cmd_info_call (spy target) xpi_cfgs w) 0).1 10).1
          HPM_ALGO_BUFF_BASE_ADDR 8).2],
       Event.tc_printf "real sector size: 0x%x \n"
        [le32 (((spy target).mem_read ((spy target).reg_read
          (hpm_algo_poll (spy target) HPM_ALGO_CMD_TIMEOUT
            (hpm_xpi_cmd_info_call (spy target) xpi_cfgs w) 0).1 10).1
          HPM_ALGO_BUFF_BASE_ADDR 8).2.drop 4)]], ?_, hw2, ?_⟩
    · simp only [e_pf, e_mr, e_rr, hrp, hcall, List.append_assoc, List.cons_append,
        List.nil_append]
    · intro e he
      rcases List.mem_append.mp he with he | he
      · exact hpas e he
      · simp at he
        rcases he with rfl | rfl | rfl <;> rfl

/-- C18: with the flash region's length equal to the configured `flash_size` (a 32-bit
value), `hpm_xpi_flash_mass_erase` makes, in this order: the reload of the helper image;
an init invocation; the get-info run, which prints six lines, reloads the image, invokes
init again and then invokes get-info; and last, whatever the earlier invocations gave, the
erase invocation with a0 = `flash_base`, a1 = 0 and a2 = `flash_size`.  Between and after
the frames there are only polls, delays and reads of register 10, and after the get-info
frame only calls that change nothing on the target. -/
theorem hpm_xpi_flash_mass_erase_sequence {σ : Type} (target : target_s σ) (st : xpi_state)
    (s : σ) (hlen : st.flash.length = st.xpi_cfgs.flash_size)
    (hsz : st.xpi_cfgs.flash_size < 2 ^ 32) :
    (∃ w1 w2 w3 w4,
      (hpm_xpi_flash_mass_erase (spy target) st (s, [])).1.2
          = [Event.mem_write 0 hpm_flash_algo] ++ init_frame st.xpi_cfgs ++ w1
              ++ info_prints st.xpi_cfgs ++ [Event.mem_write 0 hpm_flash_algo]
              ++ init_frame st.xpi_cfgs ++ w2
              ++ info_frame st.xpi_cfgs ++ w3
              ++ erase_frame st.xpi_cfgs st.xpi_cfgs.flash_size ++ w4
        ∧ (∀ e ∈ w1, e.isWait = true) ∧ (∀ e ∈ w2, e.isWait = true)
        ∧ (∀ e ∈ w3, e.isPassive = true) ∧ (∀ e ∈ w4, e.isWait = true))
      ∧ erase_frame st.xpi_cfgs st.xpi_cfgs.flash_size
          = [Event.reg_write 2 10240, Event.reg_write 10 st.xpi_cfgs.flash_base,
             Event.reg_write 11 0, Event.reg_write 12 st.xpi_cfgs.flash_size,
             Event.reg_write 32 (HPM_ALGO_LOAD_BASE_ADDR + 0x6),
             Event.reg_write 1 (HPM_ALGO_LOAD_BASE_ADDR + 0x6 + 4), Event.halt_resume false] := by
  refine ⟨?_, rfl⟩
  have hu : u32 st.flash.length = st.xpi_cfgs.flash_size := by
    rw [hlen]
    exact Nat.mod_eq_of_lt hsz
  obtain ⟨w1, h1, hw1⟩ := spy_init_log target st.xpi_cfgs
    (hpm_xpi_cmd_load (spy target) (s, [])).1
  obtain ⟨w2, w3, h3, hw2, hw3⟩ := spy_info_log target st.xpi_cfgs
    (hpm_xpi_cmd_init (spy target) st.xpi_cfgs (hpm_xpi_cmd_load (spy target) (s, [])).1).1
  obtain ⟨w4, h4, hw4⟩ := spy_cmd_erase_log target st.xpi_cfgs st.flash.length
    (hpm_xpi_flash_mass_erase_call (spy target) st.xpi_cfgs (s, []))
  refine ⟨w1, w2, w3, w4, ?_, hw1, hw2, hw3, hw4⟩
  have hcall : (hpm_xpi_flash_mass_erase_call (spy target) st.xpi_cfgs (s, [])).2
      = [Event.mem_write 0 hpm_flash_algo] ++ init_frame st.xpi_cfgs ++ w1
          ++ info_prints st.xpi_cfgs ++ [Event.mem_write 0 hpm_flash_algo]
          ++ init_frame st.xpi_cfgs ++ w2 ++ info_frame st.xpi_cfgs ++ w3 := by
    unfold hpm_xpi_flash_mass_erase_call
    simp only []
    rw [h3, h1, spy_load_log]
    simp [List.append_assoc]
  unfold hpm_xpi_flash_mass_erase
  simp only []
  rw [h4, hcall, hu]

/-- A concrete run of C18: mass erase with the default configuration and region. -/
theorem hpm_xpi_flash_mass_erase_sequence_witness :
    (xpi_state_default.flash.length = xpi_state_default.xpi_cfgs.flash_size
        ∧ xpi_state_default.xpi_cfgs.flash_size < 2 ^ 32)
      ∧ (∃ w1 w2 w3 w4,
        (hpm_xpi_flash_mass_erase (spy (sim (fun _ => true) (fun _ => 0))) xpi_state_default
            (sim_zero, [])).1.2
          = [Event.mem_write 0 hpm_flash_algo] ++ init_frame xpi_state_default.xpi_cfgs ++ w1
              ++ info_prints xpi_state_default.xpi_cfgs ++ [Event.mem_write 0 hpm_flash_algo]
              ++ init_frame xpi_state_default.xpi_cfgs ++ w2
              ++ info_frame xpi_state_default.xpi_cfgs ++ w3
              ++ erase_frame xpi_state_default.xpi_cfgs xpi_state_default.xpi_cfgs.flash_size
              ++ w4
        ∧ (∀ e ∈ w1, e.isWait = true) ∧ (∀ e ∈ w2, e.isWait = true)
        ∧ (∀ e ∈ w3, e.isPassive = true) ∧ (∀ e ∈ w4, e.isWait = true)) :=
  ⟨⟨by decide, by decide⟩,
   (hpm_xpi_flash_mass_erase_sequence (sim (fun _ => true) (fun _ => 0)) xpi_state_default
      sim_zero (by decide) (by decide)).1⟩

/-! ## Target memory: staging buffer and loader -/

/-- The poll loop keeps every property of the world that a poll and a delay keep. -/
theorem hpm_algo_poll_keeps {σ : Type} (target : target_s σ) (budget : Nat) (P : σ → Prop)
    (hpoll : ∀ s, P s → P (target.halt_poll s).1)
    (hdelay : ∀ s ms, P s → P (target.platform_delay s ms)) :
    ∀ (n : Nat) (s : σ) (t : Nat), budget - t = n → P s →
      P (hpm_algo_poll target budget s t).1 := by
  intro n
  induction n with
  | zero =>
    intro s t hn hP
    rw [hpm_algo_poll]
    have hlt : ¬ t < budget := by omega
    cases hp : (target.halt_poll s).2
    · simp only [Bool.false_eq_true, if_false, hlt]
      exact hdelay _ _ (hpoll s hP)
    · simp only [if_true]
      exact hpoll s hP
  | succ n ih =>
    intro s t hn hP
    rw [hpm_algo_poll]
    have hlt : t < budget := by omega
    cases hp : (target.halt_poll s).2
    · simp only [Bool.false_eq_true, if_false, hlt, if_true]
      exact ih _ (t + 1) (by omega) (hdelay _ _ (hpoll s hP))
    · simp only [if_true]
      exact hpoll s hP

/-- On the simulated target the shared tail leaves memory as it is. -/
theorem sim_finish_mem (halted : Nat → Bool) (reg_value : Nat → Nat) (budget : Nat)
    (w : sim_s) : (hpm_algo_finish (sim halted reg_value) budget w).1.mem = w.mem := by
  have h := hpm_algo_poll_keeps (sim halted reg_value) budget (fun x => x.mem = w.mem)
    (fun _ hs => hs) (fun _ _ hs => hs) (budget - 0) w 0 rfl rfl
  unfold hpm_algo_finish
  simp only []
  split <;> exact h

/-- Reading back a block just written to the simulated memory yields the block. -/
theorem sim_read_back (mem : Nat → Nat) (addr : Nat) (data : List Nat) :
    (List.range data.length).map
        (fun i => (fun a => if addr ≤ a ∧ a < addr + data.length then data.getD (a - addr) 0
          else mem a) (addr + i))
      = data := by
  apply List.ext_getElem
  · simp
  · intro i h1 h2
    have hi : i < data.length := h2
    simp [hi, List.getD_eq_getElem?_getD, List.getElem?_eq_getElem hi]

/-- C19: on the simulated target, whose memory is faithful, after
`hpm_xpi_flash_write(dest, src, len)` with a buffer `src` of at least `len` bytes, reading
`len` bytes back at the staging buffer address 10496 yields exactly the `len` bytes of
`src`, whatever the polls answer and whatever register 10 reads. -/
theorem staging_round_trip (halted : Nat → Bool) (reg_value : Nat → Nat)
    (xpi_cfgs : hpm_xpi_cfg_t) (dest : Nat) (src : List Nat) (len : Nat) (w : sim_s)
    (hlen : len ≤ src.length) :
    ((sim halted reg_value).mem_read
        (hpm_xpi_flash_write (sim halted reg_value) xpi_cfgs dest src len w).1 10496 len).2
      = src.take len := by
  have hl : (src.take len).length = len := by simp [hlen]
  have hmem : (hpm_xpi_flash_write (sim halted reg_value) xpi_cfgs dest src len w).1.mem
      = fun a => if 10496 ≤ a ∧ a < 10496 + (src.take len).length
          then (src.take len).getD (a - 10496) 0 else w.mem a := by
    unfold hpm_xpi_flash_write
    rw [sim_finish_mem]
    rfl
  have hread := sim_read_back w.mem 10496 (src.take len)
  rw [hl] at hread
  show (List.range len).map (fun i =>
    (hpm_xpi_flash_write (sim halted reg_value) xpi_cfgs dest src len w).1.mem (10496 + i)) = _
  rw [hmem, hl]
  exact hread

/-- A concrete run of C19: four bytes written and read back. -/
theorem staging_round_trip_witness :
    (4 ≤ [0xde, 0xad, 0xbe, 0xef].length)
      ∧ ((sim (fun _ => false) (fun _ => 1)).mem_read
          (hpm_xpi_flash_write (sim (fun _ => false) (fun _ => 1)) xpi_state_default.xpi_cfgs
            0x80000000 [0xde, 0xad, 0xbe, 0xef] 4 sim_zero).1 10496 4).2
        = [0xde, 0xad, 0xbe, 0xef].take 4 :=
  ⟨by decide,
   staging_round_trip (fun _ => false) (fun _ => 1) xpi_state_default.xpi_cfgs 0x80000000
     [0xde, 0xad, 0xbe, 0xef] 4 sim_zero (by decide)⟩

set_option maxRecDepth 8192 in
/-- The helper image has 984 bytes. -/
theorem hpm_flash_algo_length : hpm_flash_algo.length = 984 := by
  decide

/-- C20: `hpm_xpi_cmd_load` returns true and makes one call on the link, the write of the
984-byte `hpm_flash_algo` at address 0; on the simulated target the bytes `[0, 984)` then
hold the image, every byte from 984 on and every register is as before, and after a
second load memory is the same as after the first. -/
theorem hpm_xpi_cmd_load_idempotent {σ : Type} (target : target_s σ) (s : σ)
    (halted : Nat → Bool) (reg_value : Nat → Nat) (w : sim_s) :
    (hpm_xpi_cmd_load target s).2 = true
      ∧ (hpm_xpi_cmd_load (spy target) (s, [])).1.2 = [Event.mem_write 0 hpm_flash_algo]
      ∧ hpm_flash_algo.length = 984
      ∧ (∀ a, a < 984 →
          (hpm_xpi_cmd_load (sim halted reg_value) w).1.mem a = hpm_flash_algo.getD a 0)
      ∧ (∀ a, 984 ≤ a → (hpm_xpi_cmd_load (sim halted reg_value) w).1.mem a = w.mem a)
      ∧ (hpm_xpi_cmd_load (sim halted reg_value) w).1.regs = w.regs
      ∧ (hpm_xpi_cmd_load (sim halted reg_value)
            (hpm_xpi_cmd_load (sim halted reg_value) w).1).1.mem
          = (hpm_xpi_cmd_load (sim halted reg_value) w).1.mem
      ∧ (hpm_xpi_cmd_load (sim halted reg_value)
            (hpm_xpi_cmd_load (sim halted reg_value) w).1).1.regs
          = (hpm_xpi_cmd_load (sim halted reg_value) w).1.regs := by
  have hlen : hpm_flash_algo.length = 984 := hpm_flash_algo_length
  have hmem : ∀ (x : sim_s) (a : Nat), (hpm_xpi_cmd_load (sim halted reg_value) x).1.mem a
      = if a < 984 then hpm_flash_algo.getD a 0 else x.mem a := by
    intro x a
    simp only [hpm_xpi_cmd_load, sim, HPM_ALGO_LOAD_BASE_ADDR, hlen]
    simp
  refine ⟨rfl, by simp [spy_load_log], hlen, ?_, ?_, rfl, ?_, rfl⟩
  · intro a ha
    rw [hmem, if_pos ha]
  · intro a ha
    rw [hmem, if_neg (by omega)]
  · funext a
    rw [hmem, hmem]
    split <;> rfl

/-! ## Region and configuration stay consistent -/

/-- The probe registers the flash region from the configuration it leaves, whose size is a
32-bit value. -/
theorem probe_magic_consistent (soc_magic : Nat) :
    region_consistent (hpm_xpi_probe_magic soc_magic).state
      ∧ (hpm_xpi_probe_magic soc_magic).xpi_cfgs.flash_size < 2 ^ 32 := by
  refine ⟨⟨rfl, rfl⟩, ?_⟩
  simp only [hpm_xpi_probe_magic, probe_switch]
  split_ifs <;> decide

/-- One configuration command, accepted or rejected, keeps the region consistent with the
configuration and the configured size a 32-bit value. -/
theorem config_keeps_consistent {σ : Type} (target : target_s σ) (strtoul : String → Nat)
    (argc : Int) (argv : Nat → String) (st : xpi_state) (s : σ)
    (h : region_consistent st ∧ st.xpi_cfgs.flash_size < 2 ^ 32) :
    region_consistent (hpm_xpi_cmd_config target strtoul argc argv st s).1.2
      ∧ (hpm_xpi_cmd_config target strtoul argc argv st s).1.2.xpi_cfgs.flash_size < 2 ^ 32 := by
  have hu : u32 (strtoul (argv 2)) < 2 ^ 32 := Nat.mod_lt _ (by decide)
  unfold hpm_xpi_cmd_config
  by_cases hg : argc < 4 ∨ argc > 6
  · simp only [hg, if_true]
    exact h
  · simp only [hg, if_false]
    by_cases h4 : argc = 4
    · simp only [h4, if_true]
      exact ⟨⟨rfl, rfl⟩, hu⟩
    · by_cases h5 : argc = 5
      · simp only [h5, if_true]
        exact ⟨⟨rfl, rfl⟩, hu⟩
      · by_cases h6 : argc = 6
        · simp only [h6, if_true]
          exact ⟨⟨rfl, rfl⟩, hu⟩
        · exact absurd hg (by omega)

/-- A session of configuration commands keeps the region consistent with the
configuration and the configured size a 32-bit value. -/
theorem run_configs_keeps_consistent {σ : Type} (target : target_s σ)
    (strtoul : String → Nat) :
    ∀ (cmds : List (Int × (Nat → String))) (st : xpi_state) (s : σ),
      region_consistent st ∧ st.xpi_cfgs.flash_size < 2 ^ 32 →
      region_consistent (run_configs target strtoul cmds st s).2
        ∧ (run_configs target strtoul cmds st s).2.xpi_cfgs.flash_size < 2 ^ 32 := by
  intro cmds
  induction cmds with
  | nil => intro st s h; exact h
  | cons cmd rest ih =>
    intro st s h
    exact ih _ _ (config_keeps_consistent target strtoul cmd.1 cmd.2 st s h)

/-- C21: immediately after `hpm_xpi_probe`, and after every later session of
`hpm_xpi_cmd_config` calls, accepted or rejected, the flash region's start is
`xpi_cfgs.flash_base` and its length is `xpi_cfgs.flash_size`; a single call keeps this
from any state that has it; and the length that the erase of mass erase writes to
register 12 is then the configured flash size. -/
theorem region_matches_config {σ : Type} (target : target_s σ) (strtoul : String → Nat)
    (cmds : List (Int × (Nat → String))) (s s2 s3 : σ) :
    region_consistent (hpm_xpi_probe target s).1.2.state
      ∧ region_consistent
          (run_configs target strtoul cmds (hpm_xpi_probe target s).1.2.state s2).2
      ∧ (∀ (argc : Int) (argv : Nat → String) (st : xpi_state) (s4 : σ),
          region_consistent st →
            region_consistent (hpm_xpi_cmd_config target strtoul argc argv st s4).1.2)
      ∧ reg_written
          (hpm_xpi_cmd_erase_call (spy target)
            (run_configs target strtoul cmds (hpm_xpi_probe target s).1.2.state s2).2.xpi_cfgs
            (run_configs target strtoul cmds (hpm_xpi_probe target s).1.2.state s2).2.flash.length
            (s3, [])).2 12
          = some (run_configs target strtoul cmds
              (hpm_xpi_probe target s).1.2.state s2).2.xpi_cfgs.flash_size := by
  have hp := probe_magic_consistent (hpm_get_soc_magic target s).2
  have hr := run_configs_keeps_consistent target strtoul cmds
    (hpm_xpi_probe target s).1.2.state s2 hp
  refine ⟨hp.1, hr.1, ?_, ?_⟩
  · intro argc argv st s4 hst
    unfold hpm_xpi_cmd_config
    by_cases hg : argc < 4 ∨ argc > 6
    · simp only [hg, if_true]
      exact hst
    · simp only [hg, if_false]
      by_cases h4 : argc = 4
      · simp only [h4, if_true]
        exact ⟨rfl, rfl⟩
      · by_cases h5 : argc = 5
        · simp only [h5, if_true]
          exact ⟨rfl, rfl⟩
        · by_cases h6 : argc = 6
          · simp only [h6, if_true]
            exact ⟨rfl, rfl⟩
          · exact absurd hg (by omega)
  · have hu : u32 (run_configs target strtoul cmds
        (hpm_xpi_probe target s).1.2.state s2).2.flash.length
        = (run_configs target strtoul cmds
            (hpm_xpi_probe target s).1.2.state s2).2.xpi_cfgs.flash_size := by
      rw [hr.1.2]
      exact Nat.mod_eq_of_lt hr.2
    simp [reg_written, hpm_xpi_cmd_erase_call, spy, List.foldl_append, hu]

/-! ## Target RAM layout -/

/-- C22: the helper image occupies `[0, 984)` and ends below the stack base 10240; the
staging buffer starts at 10496 = stack base + 256; and for every row of `hpm_soc_maps` the
RAM regions that `hpm_xpi_probe` registers include one at address 0, at least 128 KiB long,
that holds the image, the stack base and a sector-sized staging buffer
`[10496, 10496 + 0x1000)`. -/
theorem ram_layout_in_bounds :
    (HPM_ALGO_LOAD_BASE_ADDR = 0 ∧ hpm_flash_algo.length = 984
        ∧ HPM_ALGO_LOAD_BASE_ADDR + hpm_flash_algo.length < HPM_ALGO_STACK_BASE_ADDR
        ∧ HPM_ALGO_STACK_BASE_ADDR = 10240
        ∧ HPM_ALGO_BUFF_BASE_ADDR = 10496
        ∧ HPM_ALGO_BUFF_BASE_ADDR = HPM_ALGO_STACK_BASE_ADDR + 256
        ∧ HPM_XPI_PAGE_SIZE = 0x1000)
      ∧ ∀ m ∈ hpm_soc_maps, ram_holds_algo (hpm_xpi_probe_magic m.magic).ram := by
  have hlen := hpm_flash_algo_length
  refine ⟨⟨rfl, hlen, by rw [hlen]; decide, rfl, rfl, rfl, rfl⟩, ?_⟩
  intro m hm
  unfold ram_holds_algo
  rw [hlen]
  simp only [hpm_soc_maps, List.mem_cons, List.mem_singleton, List.not_mem_nil, or_false] at hm
  rcases hm with rfl | rfl | rfl | rfl | rfl | rfl | rfl | rfl | rfl | rfl | rfl <;>
    exact ⟨_, List.mem_cons_self _ _, by decide⟩

/-! ## Entry stubs of the helper image -/

set_option maxRecDepth 8192 in
/-- C23: at each of the six entry offsets 0x0, 0x6, 0xC, 0x12, 0x18, 0x1E the helper image
holds the bytes 0xEF, 0x00 of a 4-byte `jal` whose destination register is `ra`, followed
at offset + 4 by the bytes 0x02, 0x90 of the compressed `ebreak`; the offsets are six
bytes apart; so the first instruction run at an entry writes `ra`. -/
theorem entry_stub_layout :
    entry_offsets = [0x0, 0x6, 0xC, 0x12, 0x18, 0x1E]
      ∧ (∀ e ∈ entry_offsets, entry_stub e)
      ∧ (HPM_FLASH_ERASE = HPM_FLASH_INIT + 6 ∧ HPM_FLASH_PROGRAM = HPM_FLASH_ERASE + 6
          ∧ HPM_FLASH_READ = HPM_FLASH_PROGRAM + 6 ∧ HPM_FLASH_GET_INFO = HPM_FLASH_READ + 6
          ∧ HPM_FLASH_ERASE_CHIP = HPM_FLASH_GET_INFO + 6) := by
  refine ⟨rfl, ?_, rfl, rfl, rfl, rfl, rfl⟩
  intro e he
  simp only [entry_offsets, List.mem_cons, List.mem_singleton, List.not_mem_nil, or_false] at he
  rcases he with rfl | rfl | rfl | rfl | rfl | rfl <;>
    exact ⟨by decide, by decide, by decide, by decide, by decide, by decide, by decide⟩

end HpmXpi
